import Mathlib

/-!
Shallow embedding of the finstory financial-insight pipeline
(src/backend/financial_calculations.py, ai_utils.py, config.py, ai_agent.py)
and proofs of the specification claims about it.

Numeric model: Python/NumPy floats are modelled as exact rationals plus the
special values `inf` and `nan` (`PyNum`); `round(x, k)` is modelled by
round-half-to-even on the rational value.  The CAGR entry, the one place the
code takes a non-integer real power, keeps its defining data (`CagrX`) in the
dictionary and is interpreted into `ℝ` by `CagrX.value`.
-/

namespace FinStory

/-- A Python float as it occurs in this code base: a finite (exact) rational,
positive infinity (from `float("inf")`), or NaN (from NumPy operations on
invalid domains). -/
inductive PyNum
| fin (q : ℚ)
| inf
| nan
deriving DecidableEq

/-- `x < q` for a Python float `x` and a finite threshold `q`
(IEEE semantics: comparisons with NaN are false). -/
def PyNum.ltq : PyNum → ℚ → Bool
| .fin a, q => a < q
| .inf, _ => false
| .nan, _ => false

/-- `x > q` for a Python float `x` and a finite threshold `q`. -/
def PyNum.gtq : PyNum → ℚ → Bool
| .fin a, q => q < a
| .inf, _ => true
| .nan, _ => false

/-- Round-half-to-even to an integer, as Python `round` does on floats. -/
def roundHalfEven (q : ℚ) : ℤ :=
  let f : ℤ := ⌊q⌋
  if q - f < 1/2 then f
  else if (1:ℚ)/2 < q - f then f + 1
  else if f % 2 = 0 then f else f + 1

/-- Python `round(x, 2)` on an exact rational. -/
def round2 (q : ℚ) : ℚ := (roundHalfEven (q * 100) : ℚ) / 100

/-- Python `round(x, 1)` on an exact rational. -/
def round1 (q : ℚ) : ℚ := (roundHalfEven (q * 10) : ℚ) / 10

/-- Python `round(x, 2)` on a float that may be infinite or NaN
(`round` is the identity on those). -/
def round2P : PyNum → PyNum
| .fin q => .fin (round2 q)
| x => x

/-- Python `round(x, 1)` on a float that may be infinite or NaN. -/
def round1P : PyNum → PyNum
| .fin q => .fin (round1 q)
| x => x

/-- Round-half-to-even to an integer on a real number. -/
noncomputable def roundHalfEvenR (x : ℝ) : ℤ :=
  let f : ℤ := ⌊x⌋
  if x - f < 1/2 then f
  else if (1:ℝ)/2 < x - f then f + 1
  else if f % 2 = 0 then f else f + 1

/-- `round(x, 2)` on a real number. -/
noncomputable def round2R (x : ℝ) : ℝ := (roundHalfEvenR (x * 100) : ℝ) / 100

/-- A pandas DataFrame as used by this code: a row count and named numeric
columns.  In a well-formed frame every column has exactly `nrows` values
(`Df.WF`); `len(df)` is `nrows`, `df[c].values` is the column list. -/
structure Df where
  nrows : ℕ
  cols : List (String × List ℚ)

/-- `df[c]` / `c in df.columns`: the column named `c`, if present. -/
def Df.col (df : Df) (c : String) : Option (List ℚ) :=
  (df.cols.find? (fun p => p.1 = c)).map (fun p => p.2)

/-- Well-formedness of a frame: every column holds one value per row. -/
def Df.WF (df : Df) : Prop :=
  ∀ p ∈ df.cols, p.2.length = df.nrows

/-- `series.iloc[-1]`: last element, raising (modelled as `Except.error`)
on an empty series. -/
def ilocLast (l : List ℚ) : Except String ℚ :=
  match l.getLast? with
  | some v => .ok v
  | none => .error ("single positional indexer is out-of-bounds")

/-- `series.iloc[-2]`: second-to-last element, raising when absent. -/
def ilocPrev (l : List ℚ) : Except String ℚ :=
  if 2 ≤ l.length then .ok (l.getD (l.length - 2) 0)
  else .error ("single positional indexer is out-of-bounds")

/-- The data defining the CAGR float stored by `calculate_growth`:
the ratio `values[-1] / values[0]` and the exponent denominator
`n_periods = len(values) - 1`. -/
structure CagrX where
  ratio : ℚ
  nPer : ℕ
deriving DecidableEq

/-- The real value of the stored CAGR float,
`round(((ratio ** (1 / nPer)) - 1) * 100, 2)`.
NumPy float power of a negative base with a non-integral exponent is NaN
(modelled as `none`); with the integral exponent `1/1` it is the base itself. -/
noncomputable def CagrX.value (c : CagrX) : Option ℝ :=
  if 0 ≤ c.ratio then
    some (round2R ((((c.ratio : ℝ)) ^ ((1:ℝ)/(c.nPer : ℝ)) - 1) * 100))
  else if c.nPer = 1 then
    some (round2R (((c.ratio : ℝ) - 1) * 100))
  else none

/-- The dictionary returned by `calculate_growth`
(src/backend/financial_calculations.py, lines 10-65).
`none` in an `Option` field models an absent key; the nested option of
`cagr` distinguishes the Python value `None` from an absent key. -/
structure GrowthDict where
  current_value : Option ℚ := none
  previous_value : Option ℚ := none
  growth_rate : Option PyNum := none
  growth_amount : Option ℚ := none
  cagr : Option (Option CagrX) := none
  trend : Option String := none
  error : Option String := none
deriving DecidableEq

/-- `calculate_growth(df, column, periods)`
(src/backend/financial_calculations.py, lines 10-65). -/
def calculate_growth (df : Df) (column : String) (periods : ℕ) : GrowthDict :=
  match df.col column with
  | none => { error := some ("Column " ++ column ++ " not found in data") }
  | some values =>
    if values.length < 2 then
      { current_value := some (if values.length > 0 then values.getLastD 0 else 0)
        growth_rate := some (.fin 0)
        growth_amount := some 0
        error := some ("Insufficient data for growth calculation") }
    else
      let current := values.getLastD 0
      let previous :=
        if values.length > periods then values.getD (values.length - periods - 1) 0
        else values.headD 0
      let growth_rate : PyNum :=
        if previous ≠ 0 then .fin ((current - previous) / |previous| * 100)
        else if current = 0 then .fin 0 else .inf
      let growth_amount : ℚ := if previous ≠ 0 then current - previous else current
      let first := values.headD 0
      let cagr : Option CagrX :=
        if first > 0 then some ⟨current / first, values.length - 1⟩ else none
      { current_value := some current
        previous_value := some previous
        growth_rate := some (round2P growth_rate)
        growth_amount := some (round2 growth_amount)
        cagr := some cagr
        trend := some (if growth_rate.gtq 0 then "increasing"
                       else if growth_rate.ltq 0 then "decreasing" else "stable") }

/-- The dictionary returned by `calculate_margin`
(src/backend/financial_calculations.py, lines 68-127). -/
structure MarginsDict where
  gross_margin : Option ℚ := none
  operating_margin : Option ℚ := none
  net_margin : Option ℚ := none
  margin_trend : Option ℚ := none
  error : Option String := none
deriving DecidableEq

/-- Gross-margin block of `calculate_margin`: set only when both columns are
present; 0 when the latest revenue is 0. -/
def grossStep (df : Df) (revenue_col cost_col : String) : Except String (Option ℚ) :=
  match df.col revenue_col, df.col cost_col with
  | some rv, some cv => do
      let r ← ilocLast rv
      let c ← ilocLast cv
      if r ≠ 0 then pure (some (round2 ((r - c) / r * 100)))
      else pure (some 0)
  | _, _ => pure none

/-- Operating-margin block of `calculate_margin`: set only when both columns
are present and the latest revenue is nonzero (no zero-revenue fallback). -/
def operatingStep (df : Df) (revenue_col : String) : Except String (Option ℚ) :=
  match df.col ("operating_income"), df.col revenue_col with
  | some ov, some rv => do
      let oi ← ilocLast ov
      let r ← ilocLast rv
      if r ≠ 0 then pure (some (round2 (oi / r * 100)))
      else pure none
  | _, _ => pure none

/-- Net-margin block of `calculate_margin`: set only when both columns are
present and the latest revenue is nonzero (no zero-revenue fallback). -/
def netStep (df : Df) (revenue_col : String) : Except String (Option ℚ) :=
  match df.col ("net_income"), df.col revenue_col with
  | some nv, some rv => do
      let ni ← ilocLast nv
      let r ← ilocLast rv
      if r ≠ 0 then pure (some (round2 (ni / r * 100)))
      else pure none
  | _, _ => pure none

/-- Margin-trend block of `calculate_margin`: previous-period gross margin
(unrounded) subtracted from the already-rounded current gross margin
(`margins.get("gross_margin", 0)`). -/
def trendStep (df : Df) (revenue_col cost_col : String) (gross : Option ℚ) :
    Except String (Option ℚ) :=
  match df.col revenue_col, df.col cost_col with
  | some rv, some cv =>
    if df.nrows ≥ 2 then do
      let pr ← ilocPrev rv
      let pc ← ilocPrev cv
      if pr ≠ 0 then
        pure (some (round2 (gross.getD 0 - (pr - pc) / pr * 100)))
      else pure none
    else pure none
  | _, _ => pure none

/-- The `try` body of `calculate_margin`: the four blocks in source order;
any raised exception aborts the whole dictionary. -/
def calcMarginEx (df : Df) (revenue_col cost_col : String) :
    Except String MarginsDict := do
  let g ← grossStep df revenue_col cost_col
  let o ← operatingStep df revenue_col
  let n ← netStep df revenue_col
  let t ← trendStep df revenue_col cost_col g
  pure { gross_margin := g, operating_margin := o, net_margin := n, margin_trend := t }

/-- `calculate_margin(df, revenue_col, cost_col)`
(src/backend/financial_calculations.py, lines 68-127): the exception handler
replaces everything with a single error entry. -/
def calculate_margin (df : Df) (revenue_col cost_col : String) : MarginsDict :=
  match calcMarginEx df revenue_col cost_col with
  | .ok m => m
  | .error e => { error := some ("Margin calculation failed: " ++ e) }

/-- The dictionary returned by `calculate_cash_flow`
(src/backend/financial_calculations.py, lines 130-189). -/
structure CashFlowDict where
  operating_cash_flow : Option ℚ := none
  avg_operating_cash_flow : Option PyNum := none
  free_cash_flow : Option ℚ := none
  cash_conversion_cycle : Option ℚ := none
  cash_position : Option ℚ := none
  runway_months : Option PyNum := none
  error : Option String := none
deriving DecidableEq

/-- Mean of a list (`Series.mean()`); NaN on an empty series. -/
def seriesMean (l : List ℚ) : PyNum :=
  if l.length = 0 then .nan else .fin (l.sum / l.length)

/-- `series.tail(n)`: the last `n` values. -/
def tailN (l : List ℚ) (n : ℕ) : List ℚ := l.drop (l.length - n)

/-- Operating-cash-flow block of `calculate_cash_flow`: latest value plus
the trailing 3-period mean when the frame has at least 3 rows. -/
def ocfStep (df : Df) : Except String (Option ℚ × Option PyNum) :=
  match df.col ("cash_from_operations") with
  | some l => do
      let ocf ← ilocLast l
      let avg : Option PyNum :=
        if df.nrows ≥ 3 then some (round2P (seriesMean (tailN l 3))) else none
      pure (some (round2 ocf), avg)
  | none => pure (none, none)

/-- Free-cash-flow block of `calculate_cash_flow`. -/
def fcfStep (df : Df) : Except String (Option ℚ) :=
  match df.col ("cash_from_operations"), df.col ("capital_expenditures") with
  | some ov, some cv => do
      let ocf ← ilocLast ov
      let capex ← ilocLast cv
      pure (some (round2 (ocf - capex)))
  | _, _ => pure none

/-- Cash-conversion-cycle block of `calculate_cash_flow`:
`df.get("revenue", pd.Series([1]))` defaults the revenue to 1. -/
def cccStep (df : Df) : Except String (Option ℚ) :=
  match df.col ("accounts_receivable"), df.col ("inventory"),
        df.col ("accounts_payable") with
  | some arv, some iv, some apv => do
      let ar ← ilocLast arv
      let inv ← ilocLast iv
      let ap ← ilocLast apv
      let revenue ← match df.col ("revenue") with
        | some rv => ilocLast rv
        | none => pure 1
      if revenue > 0 then
        pure (some (round1 (ar / revenue * 365 + inv / revenue * 365 -
          ap / revenue * 365)))
      else pure none
  | _, _, _ => pure none

/-- Cash-position block of `calculate_cash_flow`: latest cash balance plus,
when the (already stored, rounded) operating cash flow is negative, the
runway estimate `cash / (abs(ocf) / 12)` with an infinite fallback. -/
def cashPosStep (df : Df) (ocfStored : Option ℚ) :
    Except String (Option ℚ × Option PyNum) :=
  match df.col ("cash_and_equivalents") with
  | some l => do
      let cash ← ilocLast l
      let runway : Option PyNum :=
        match ocfStored with
        | some v =>
          if v < 0 then
            let burn := |v| / 12
            some (round1P (if burn > 0 then .fin (cash / burn) else .inf))
          else none
        | none => none
      pure (some (round2 cash), runway)
  | none => pure (none, none)

/-- The `try` body of `calculate_cash_flow`: the four blocks in source order. -/
def calcCashFlowEx (df : Df) : Except String CashFlowDict := do
  let (ocf, avg) ← ocfStep df
  let fcf ← fcfStep df
  let ccc ← cccStep df
  let (cash, runway) ← cashPosStep df ocf
  pure { operating_cash_flow := ocf, avg_operating_cash_flow := avg,
         free_cash_flow := fcf, cash_conversion_cycle := ccc,
         cash_position := cash, runway_months := runway }

/-- `calculate_cash_flow(df)`
(src/backend/financial_calculations.py, lines 130-189). -/
def calculate_cash_flow (df : Df) : CashFlowDict :=
  match calcCashFlowEx df with
  | .ok m => m
  | .error e => { error := some ("Cash flow calculation failed: " ++ e) }

/-- The dictionary returned by `calculate_financial_ratios`
(src/backend/financial_calculations.py, lines 192-259). -/
structure RatiosDict where
  current_ratio : Option ℚ := none
  quick_ratio : Option ℚ := none
  debt_to_equity : Option ℚ := none
  asset_turnover : Option ℚ := none
  return_on_equity : Option ℚ := none
  return_on_assets : Option ℚ := none
  error : Option String := none
deriving DecidableEq

/-- Liquidity block of `calculate_financial_ratios`: current ratio and, when
inventory data exists, the quick ratio; both guarded on nonzero
current liabilities. -/
def liquidityStep (df : Df) : Except String (Option ℚ × Option ℚ) :=
  match df.col ("current_assets"), df.col ("current_liabilities") with
  | some cav, some clv => do
      let ca ← ilocLast cav
      let cl ← ilocLast clv
      let cur : Option ℚ := if cl ≠ 0 then some (round2 (ca / cl)) else none
      match df.col ("inventory") with
      | some iv => do
          let inv ← ilocLast iv
          let qk : Option ℚ := if cl ≠ 0 then some (round2 ((ca - inv) / cl)) else none
          pure (cur, qk)
      | none => pure (cur, none)
  | _, _ => pure (none, none)

/-- Leverage block of `calculate_financial_ratios`. -/
def leverageStep (df : Df) : Except String (Option ℚ) :=
  match df.col ("total_debt"), df.col ("total_equity") with
  | some dv, some ev => do
      let d ← ilocLast dv
      let e ← ilocLast ev
      if e ≠ 0 then pure (some (round2 (d / e))) else pure none
  | _, _ => pure none

/-- Efficiency block of `calculate_financial_ratios`. -/
def turnoverStep (df : Df) : Except String (Option ℚ) :=
  match df.col ("revenue"), df.col ("total_assets") with
  | some rv, some av => do
      let r ← ilocLast rv
      let a ← ilocLast av
      if a ≠ 0 then pure (some (round2 (r / a))) else pure none
  | _, _ => pure none

/-- Return-on-equity block of `calculate_financial_ratios`. -/
def roeStep (df : Df) : Except String (Option ℚ) :=
  match df.col ("net_income"), df.col ("total_equity") with
  | some nv, some ev => do
      let ni ← ilocLast nv
      let e ← ilocLast ev
      if e ≠ 0 then pure (some (round2 (ni / e * 100))) else pure none
  | _, _ => pure none

/-- Return-on-assets block of `calculate_financial_ratios`. -/
def roaStep (df : Df) : Except String (Option ℚ) :=
  match df.col ("net_income"), df.col ("total_assets") with
  | some nv, some av => do
      let ni ← ilocLast nv
      let a ← ilocLast av
      if a ≠ 0 then pure (some (round2 (ni / a * 100))) else pure none
  | _, _ => pure none

/-- The `try` body of `calculate_financial_ratios`. -/
def calcRatiosEx (df : Df) : Except String RatiosDict := do
  let (cur, qk) ← liquidityStep df
  let de ← leverageStep df
  let at' ← turnoverStep df
  let roe ← roeStep df
  let roa ← roaStep df
  pure { current_ratio := cur, quick_ratio := qk, debt_to_equity := de,
         asset_turnover := at', return_on_equity := roe, return_on_assets := roa }

/-- `calculate_financial_ratios(df)`
(src/backend/financial_calculations.py, lines 192-259). -/
def calculate_financial_ratios (df : Df) : RatiosDict :=
  match calcRatiosEx df with
  | .ok m => m
  | .error e => { error := some ("Ratio calculation failed: " ++ e) }

/-- The bundle returned by `calculate_all_metrics`
(src/backend/financial_calculations.py, lines 262-279).  `none` models an
absent top-level key (the pipeline state starts with the empty dict `{}`);
`calculate_all_metrics` itself always sets every key, with the *empty*
growth dict when the corresponding column is missing. -/
structure MetricsDict where
  revenue_metrics : Option GrowthDict := none
  profit_metrics : Option GrowthDict := none
  margins : Option MarginsDict := none
  cash_flow : Option CashFlowDict := none
  financial_ratios : Option RatiosDict := none
  timestamp : Option String := none
deriving DecidableEq

/-- `calculate_all_metrics(df)`; `now` supplies `pd.Timestamp.now()`. -/
def calculate_all_metrics (df : Df) (now : String) : MetricsDict :=
  { revenue_metrics :=
      some (if (df.col ("revenue")).isSome then calculate_growth df ("revenue") 1 else {})
    profit_metrics :=
      some (if (df.col ("net_income")).isSome then calculate_growth df ("net_income") 1 else {})
    margins := some (calculate_margin df ("revenue") ("cost_of_goods_sold"))
    cash_flow := some (calculate_cash_flow df)
    financial_ratios := some (calculate_financial_ratios df)
    timestamp := some now }

/-- Least-squares slope of `np.polyfit(arange(n), ys, 1)` for `n ≥ 2`. -/
def lsSlope (ys : List ℚ) : ℚ :=
  let n : ℚ := ys.length
  let xs : List ℚ := (List.range ys.length).map (fun i => (i : ℚ))
  let sx := xs.sum
  let sy := ys.sum
  let sxy := ((xs.zip ys).map (fun p => p.1 * p.2)).sum
  let sxx := (xs.map (fun x => x * x)).sum
  (n * sxy - sx * sy) / (n * sxx - sx * sx)

/-- `identify_metric_trends(df, window)`
(src/backend/financial_calculations.py, lines 282-315). -/
def identify_metric_trends (df : Df) (window : ℕ) : List (String × String) :=
  (["revenue", "net_income", "operating_income", "cash_from_operations"]).foldl
    (fun acc metric =>
      match df.col metric with
      | some l =>
        if df.nrows ≥ window then
          let values := tailN l window
          if values.length > 1 then
            let slope := lsSlope values
            acc ++ [(metric,
              if slope > 0 then "upward"
              else if slope < 0 then "downward" else "stable")]
          else acc
        else acc
      | none => acc) []

/-- ASCII lowercasing, modelling Python `str.lower` on the strings this code
produces. -/
def strLower (s : String) : String := String.mk (s.data.map Char.toLower)

/-- The number of decimal digits needed to write `q` exactly, when at most 17
suffice (all values interpolated by this code are `round(x, 1)` or
`round(x, 2)` results, so 1 or 2). -/
def decDigits (q : ℚ) : Option ℕ :=
  (List.range 18).find? (fun k => (q * 10 ^ k).den == 1)

/-- Python `str(float)` (shortest round-trip decimal) for a rational with a
finite decimal expansion: at least one digit after the point, e.g. `2 ↦ 2.0`,
`-25/3 ↦` a fraction fallback never produced by the modelled code. -/
def pyFloatRepr (q : ℚ) : String :=
  match decDigits q with
  | some k0 =>
    let k := max k0 1
    let sgn := if q < 0 then "-" else ""
    let scaled : ℕ := (|q| * 10 ^ k).num.toNat
    let s := toString scaled
    let s := String.mk (List.replicate (k + 1 - s.length) '0') ++ s
    sgn ++ String.mk (s.data.take (s.data.length - k)) ++ "." ++
      String.mk (s.data.drop (s.data.length - k))
  | none => toString q.num ++ "/" ++ toString q.den

/-- Python `str`/f-string rendering of a float that may be `inf` or NaN. -/
def pyStr : PyNum → String
| .fin q => pyFloatRepr q
| .inf => "inf"
| .nan => "nan"

/-- Insert thousands separators into a digit string (helper for `{:,.2f}`). -/
def commaGroupAux : List Char → List Char
| a :: b :: c :: d :: rest => a :: b :: c :: ',' :: commaGroupAux (d :: rest)
| l => l

/-- Python `f"{x:,.2f}"` on a float value. -/
def fmtComma2 : PyNum → String
| .fin q =>
  let c : ℤ := roundHalfEven (q * 100)
  let sgn := if c < 0 then "-" else ""
  let n : ℕ := c.natAbs
  let ip := String.mk ((commaGroupAux (toString (n / 100)).data.reverse).reverse)
  let fp := toString (n % 100)
  sgn ++ ip ++ "." ++ String.mk (List.replicate (2 - fp.length) '0') ++ fp
| .inf => "inf"
| .nan => "nan"

/-- Python `f"{x:.1f}"` on a float value. -/
def fmt1 : PyNum → String
| .fin q =>
  let c : ℤ := roundHalfEven (q * 10)
  let sgn := if c < 0 then "-" else ""
  let n : ℕ := c.natAbs
  sgn ++ toString (n / 10) ++ "." ++ toString (n % 10)
| .inf => "inf"
| .nan => "nan"

/-- A risk entry as carried through the pipeline: rule-based risks set every
field; AI-sourced risks are arbitrary parsed dictionaries, so every key is
optional (`risk.get("title")` of a titleless risk is Python `None`, i.e.
`none`). -/
structure Risk where
  category : Option String := none
  severity : Option String := none
  title : Option String := none
  description : Option String := none
  indicators : List String := []
  impact : Option String := none
  metric_value : Option PyNum := none
deriving DecidableEq

/-- `config.RISK_THRESHOLDS["revenue_decline"]` (src/backend/config.py). -/
def threshRevenueDecline : ℚ := -5

/-- `config.RISK_THRESHOLDS["margin_decline"]` (src/backend/config.py). -/
def threshMarginDecline : ℚ := -3

/-- `config.RISK_THRESHOLDS["debt_ratio_high"]` (src/backend/config.py). -/
def threshDebtRatioHigh : ℚ := 7/10

/-- `config.RISK_THRESHOLDS["low_liquidity"]` (src/backend/config.py). -/
def threshLowLiquidity : ℚ := 3/2

/-- Revenue-decline rule of `identify_risks`
(src/backend/ai_utils.py, lines 127-139). -/
def revenueDeclineRisks (metrics : MetricsDict) : List Risk :=
  match metrics.revenue_metrics with
  | some rev =>
    match rev.growth_rate with
    | some gr =>
      if gr.ltq threshRevenueDecline then
        [{ category := some ("growth"),
           severity := some (if gr.ltq (-10) then "high" else "medium"),
           title := some ("Revenue Decline"),
           description := some ("Revenue is declining at " ++ pyStr gr ++
             "% year-over-year"),
           indicators := ["Revenue growth: " ++ pyStr gr ++ "%"],
           impact := some ("Reduced profitability and potential market share loss"),
           metric_value := some gr }]
      else []
    | none => []
  | none => []

/-- Margin-compression and low-net-margin rules of `identify_risks`
(src/backend/ai_utils.py, lines 141-165). -/
def marginRisks (metrics : MetricsDict) : List Risk :=
  match metrics.margins with
  | some m =>
    (match m.margin_trend with
     | some mt =>
       if mt < threshMarginDecline then
         [{ category := some ("profitability"),
            severity := some ("medium"),
            title := some ("Margin Compression"),
            description := some ("Profit margins declining by " ++
              pyFloatRepr mt ++ "%"),
            indicators := ["Margin change: " ++ pyFloatRepr mt ++ "%"],
            impact := some ("Reduced profitability despite revenue performance"),
            metric_value := some (.fin mt) }]
       else []
     | none => []) ++
    (match m.net_margin with
     | some nm =>
       if nm < 5 then
         [{ category := some ("profitability"),
            severity := some ("medium"),
            title := some ("Low Net Margin"),
            description := some ("Net profit margin is only " ++
              pyFloatRepr nm ++ "%"),
            indicators := ["Net margin: " ++ pyFloatRepr nm ++ "%"],
            impact := some ("Limited buffer for operational challenges or market changes"),
            metric_value := some (.fin nm) }]
       else []
     | none => [])
  | none => []

/-- Negative-operating-cash-flow and low-runway rules of `identify_risks`
(src/backend/ai_utils.py, lines 167-193). -/
def cashFlowRisks (metrics : MetricsDict) : List Risk :=
  match metrics.cash_flow with
  | some cf =>
    (match cf.operating_cash_flow with
     | some ocf =>
       if ocf < 0 then
         [{ category := some ("liquidity"),
            severity := some ("high"),
            title := some ("Negative Operating Cash Flow"),
            description := some ("Operating cash flow is negative at $" ++
              fmtComma2 (.fin ocf)),
            indicators := ["Negative operating cash flow"],
            impact := some ("Company is burning cash from core operations"),
            metric_value := some (.fin ocf) }]
       else []
     | none => []) ++
    (match cf.runway_months with
     | some rm =>
       if rm.ltq 6 then
         [{ category := some ("liquidity"),
            severity := some ("high"),
            title := some ("Low Cash Runway"),
            description := some ("Only " ++ fmt1 rm ++
              " months of cash remaining at current burn rate"),
            indicators := ["Cash runway: " ++ fmt1 rm ++ " months"],
            impact := some ("Urgent need for funding or profitability improvement"),
            metric_value := some rm }]
       else []
     | none => [])
  | none => []

/-- Low-liquidity and high-leverage rules of `identify_risks`
(src/backend/ai_utils.py, lines 195-221). -/
def ratioRisks (metrics : MetricsDict) : List Risk :=
  match metrics.financial_ratios with
  | some ratios =>
    (match ratios.current_ratio with
     | some cr =>
       if cr < threshLowLiquidity then
         [{ category := some ("liquidity"),
            severity := some (if cr > 1 then "medium" else "high"),
            title := some ("Low Liquidity Ratio"),
            description := some ("Current ratio of " ++ pyFloatRepr cr ++
              " indicates potential liquidity stress"),
            indicators := ["Current ratio: " ++ pyFloatRepr cr],
            impact := some ("May struggle to meet short-term obligations"),
            metric_value := some (.fin cr) }]
       else []
     | none => []) ++
    (match ratios.debt_to_equity with
     | some de =>
       if de > threshDebtRatioHigh then
         [{ category := some ("leverage"),
            severity := some (if de < 3/2 then "medium" else "high"),
            title := some ("High Leverage"),
            description := some ("Debt-to-equity ratio of " ++ pyFloatRepr de ++
              " indicates high leverage"),
            indicators := ["D/E ratio: " ++ pyFloatRepr de],
            impact := some ("Increased financial risk and interest burden"),
            metric_value := some (.fin de) }]
       else []
     | none => [])
  | none => []

/-- The key `severity_order.get(x["severity"], 3)` used to sort risks
(src/backend/ai_utils.py, lines 223-225); every rule-made risk carries a
severity, so the `none` case is unreachable from `identify_risks`. -/
def severityRank (r : Risk) : ℕ :=
  match r.severity with
  | some s => if s = "high" then 0 else if s = "medium" then 1
              else if s = "low" then 2 else 3
  | none => 3

/-- `risks.sort(key=lambda x: severity_order.get(x["severity"], 3))`:
Python `list.sort` is a stable sort, and a stable sort by a key ranging over
{0,1,2,3} is exactly the concatenation of the four rank-classes in original
order. -/
def sortBySeverity (l : List Risk) : List Risk :=
  l.filter (fun r => severityRank r == 0) ++
  l.filter (fun r => severityRank r == 1) ++
  l.filter (fun r => severityRank r == 2) ++
  l.filter (fun r => severityRank r == 3)

/-- `identify_risks(metrics)` (src/backend/ai_utils.py, lines 114-227):
the rule blocks in source order, then the severity sort. -/
def identify_risks (metrics : MetricsDict) : List Risk :=
  sortBySeverity (revenueDeclineRisks metrics ++ marginRisks metrics ++
    cashFlowRisks metrics ++ ratioRisks metrics)

/-- First-occurrence-wins deduplication by a key, with the already-seen key
set carried explicitly (the Python loops over `all_risks` /
`all_recommendations` with a `seen` set). -/
def dedupKeyGo {α κ : Type} [DecidableEq κ] (key : α → κ) :
    List α → List κ → List α
| [], _ => []
| x :: xs, seen =>
  if key x ∈ seen then dedupKeyGo key xs seen
  else x :: dedupKeyGo key xs (key x :: seen)

/-- The risk merge of `identify_risks_node`
(src/backend/ai_agent.py, lines 177-185): deduplicate on `risk.get("title")`. -/
def dedup_risks (l : List Risk) : List Risk :=
  dedupKeyGo (fun r => r.title) l []

/-- The recommendation merge of `generate_recommendations_node`
(src/backend/ai_agent.py, lines 250-256): deduplicate on `rec.lower()`. -/
def dedup_recs (l : List String) : List String :=
  dedupKeyGo strLower l []

/-- `d[k]` on an optional field: raises `KeyError` when the key is absent. -/
def keyGet {α : Type} (v : Option α) (k : String) : Except String α :=
  match v with
  | some x => .ok x
  | none => .error ("KeyError: " ++ k)

/-- The risk-driven loop of `generate_recommendations`
(src/backend/ai_utils.py, lines 245-265): `risk["severity"]` and, for
high-severity risks, `risk["category"]` are hard key accesses that raise on
AI-sourced risks missing them. -/
def riskRecs (persona : String) : List Risk → Except String (List String)
| [] => .ok []
| r :: rs => do
  let sev ← keyGet r.severity ("severity")
  let here ←
    if sev = "high" then do
      let cat ← keyGet r.category ("category")
      if cat = "liquidity" then
        if persona = "CFO" then do
          let t ← keyGet r.title ("title")
          pure (["URGENT: " ++ t ++ " - Implement immediate cash preservation measures and explore short-term financing options"])
        else if persona = "Board" then do
          let t ← keyGet r.title ("title")
          pure (["Strategic Action Required: " ++ t ++ " - Review capital structure and consider strategic financing options"])
        else pure ([] : List String)
      else if cat = "growth" then
        if persona = "Investor" then do
          let t ← keyGet r.title ("title")
          pure (["Growth Concern: " ++ t ++ " - Assess market position and evaluate strategic pivots or new market opportunities"])
        else pure ([] : List String)
      else pure ([] : List String)
    else pure ([] : List String)
  let rest ← riskRecs persona rs
  pure (here ++ rest)

/-- Net-margin recommendation of `generate_recommendations`
(src/backend/ai_utils.py, lines 267-275). -/
def marginRec (metrics : MetricsDict) (persona : String) : List String :=
  match metrics.margins with
  | some m =>
    match m.net_margin with
    | some margin =>
      if margin < 10 then
        if persona = "CFO" then
          ["Margin Improvement: Current net margin at " ++ pyFloatRepr margin ++
           "% - Conduct detailed cost analysis and identify efficiency opportunities"]
        else []
      else []
    | none => []
  | none => []

/-- Free-cash-flow recommendation of `generate_recommendations`
(src/backend/ai_utils.py, lines 277-285). -/
def cfRec (metrics : MetricsDict) (persona : String) : List String :=
  match metrics.cash_flow with
  | some cf =>
    match cf.free_cash_flow with
    | some fcf =>
      if fcf < 0 then
        if persona = "CFO" then
          ["Cash Flow Management: Negative FCF - Review capital expenditures and optimize working capital management"]
        else []
      else []
    | none => []
  | none => []

/-- Growth recommendations of `generate_recommendations`
(src/backend/ai_utils.py, lines 287-300). -/
def growthRec (metrics : MetricsDict) (persona : String) : List String :=
  match metrics.revenue_metrics with
  | some rev =>
    match rev.growth_rate with
    | some gr =>
      if gr.ltq 5 ∧ persona = "Investor" then
        ["Growth Strategy: Revenue growth below market expectations - Explore new revenue streams and market expansion opportunities"]
      else if gr.gtq 30 ∧ persona = "CFO" then
        ["Scale Infrastructure: High growth rate - Ensure operational infrastructure can support continued rapid expansion"]
      else []
    | none => []
  | none => []

/-- `generate_recommendations(metrics, risks, persona)`
(src/backend/ai_utils.py, lines 230-303): the rule blocks in source order,
truncated to the first 5. -/
def generate_recommendations (metrics : MetricsDict) (risks : List Risk)
    (persona : String) : Except String (List String) := do
  let rr ← riskRecs persona risks
  pure ((rr ++ marginRec metrics persona ++ cfRec metrics persona ++
    growthRec metrics persona).take 5)

/-- The insight dictionary flowing through the pipeline: the five structured
keys, plus the two keys of the catch-all error shape of `parse_insights`.
The empty dict `{}` (initial state) is the all-default value. -/
structure Insights where
  key_takeaways : List String := []
  strengths : List String := []
  concerns : List String := []
  recommendations : List String := []
  summary : String := ""
  error : Option String := none
  raw_response : Option String := none
deriving DecidableEq

/-- The section labels of the heuristic insight parser. -/
inductive InsSection
| takeaways
| strengths
| concerns
| recs
| summary
deriving DecidableEq

/-- Python whitespace for `str.strip` on the ASCII text this code handles. -/
def isPySpace (c : Char) : Bool :=
  c = ' ' || c = '\t' || c = '\n' || c = '\r' || c = '\x0b' || c = '\x0c'

/-- Python `str.strip()`: drop whitespace from both ends. -/
def pyStrip (s : String) : String :=
  String.mk (((s.data.dropWhile isPySpace).reverse.dropWhile isPySpace).reverse)

/-- Prepend a character to the first chunk of a split result. -/
def consHead (a : Char) : List (List Char) → List (List Char)
| [] => [[a]]
| h :: t => (a :: h) :: t

/-- Split a character list on a single separator character
(Python `str.split(sep)` with a one-character separator). -/
def splitOnChar (c : Char) : List Char → List (List Char)
| [] => [[]]
| a :: rest =>
  if a = c then [] :: splitOnChar c rest
  else consHead a (splitOnChar c rest)

/-- Python `text.split("\n")`. -/
def splitLinesPy (s : String) : List String :=
  (splitOnChar '\n' s.data).map String.mk

/-- Split on the two-character separator `"\n\n"`, leftmost-first and
non-overlapping (Python `text.split("\n\n")`). -/
def splitOnNN : List Char → List (List Char)
| [] => [[]]
| [a] => [[a]]
| a :: b :: rest =>
  if a = '\n' ∧ b = '\n' then [] :: splitOnNN rest
  else consHead a (splitOnNN (b :: rest))

/-- Case-insensitive substring search, `re.search(kw, line, re.IGNORECASE)`
for a plain-word pattern `kw` (given lowercase). -/
def containsCI (line kw : String) : Bool :=
  decide ((kw.data) <:+: ((strLower line).data))

/-- The section-classification chain of `parse_unstructured_insights`
(src/backend/ai_utils.py, lines 76-86): first matching keyword group wins,
otherwise the current section is kept. -/
def sectionOf (line : String) (cur : Option InsSection) : Option InsSection :=
  if containsCI line ("key") || containsCI line ("takeaway") ||
     containsCI line ("insight") then some .takeaways
  else if containsCI line ("strength") || containsCI line ("positive") ||
     containsCI line ("good") then some .strengths
  else if containsCI line ("concern") || containsCI line ("risk") ||
     containsCI line ("issue") || containsCI line ("problem") ||
     containsCI line ("weakness") then some .concerns
  else if containsCI line ("recommend") || containsCI line ("suggest") ||
     containsCI line ("action") || containsCI line ("should") then some .recs
  else if containsCI line ("summary") || containsCI line ("overview") ||
     containsCI line ("conclusion") then some .summary
  else cur

/-- Membership in the regex class `[\x2d\x2a\d\x2e\x29]` (dash, star, digit,
dot, closing parenthesis). -/
def bulletChar (c : Char) : Bool :=
  c = '-' || c = '*' || c.isDigit || c = '.' || c = ')'

/-- The item match `re.match(r"^[...]\s*(.+)$", line)` followed by
`.group(1).strip()`: one class character, at least one further character,
and the remainder stripped. -/
def itemContent (line : String) : Option String :=
  match line.data with
  | [] => none
  | c :: rest =>
    if bulletChar c ∧ rest ≠ [] then some (pyStrip (String.mk rest)) else none

/-- Append an extracted item to the list of a (non-summary) section. -/
def Insights.addTo (ins : Insights) (sec : InsSection) (content : String) :
    Insights :=
  match sec with
  | .takeaways => { ins with key_takeaways := ins.key_takeaways ++ [content] }
  | .strengths => { ins with strengths := ins.strengths ++ [content] }
  | .concerns => { ins with concerns := ins.concerns ++ [content] }
  | .recs => { ins with recommendations := ins.recommendations ++ [content] }
  | .summary => ins

/-- One iteration of the line loop of `parse_unstructured_insights`
(src/backend/ai_utils.py, lines 73-100): strip the line, update the current
section, then either extract a bulleted item (kept only when its stripped
content is nonempty and strictly longer than 10 characters) or, in the
summary section, accumulate non-bulleted text. -/
def stepLine (acc : Insights × Option InsSection) (rawLine : String) :
    Insights × Option InsSection :=
  let line := pyStrip rawLine
  let cur := sectionOf line acc.2
  let ins := acc.1
  let ins :=
    match cur with
    | some sec =>
      if sec ≠ InsSection.summary then
        match itemContent line with
        | some content =>
          if content ≠ "" ∧ content.length > 10 then ins.addTo sec content
          else ins
        | none => ins
      else
        if line ≠ "" ∧ ¬ bulletChar (line.data.headD ' ') then
          { ins with summary := ins.summary ++ " " ++ line }
        else ins
    | none => ins
  (ins, cur)

/-- `parse_unstructured_insights(text)`
(src/backend/ai_utils.py, lines 51-111). -/
def parse_unstructured_insights (text : String) : Insights :=
  let res := (splitLinesPy text).foldl stepLine ({}, none)
  let ins := { res.1 with summary := pyStrip res.1.summary }
  if ins.summary = "" ∧ text.length > 50 then
    let paragraphs :=
      (((splitOnNN text.data).map String.mk).map pyStrip).filter (fun p => p ≠ "")
    match paragraphs with
    | p :: _ => { ins with summary := String.mk (p.data.take 500) }
    | [] => ins
  else ins

/-- `Config` (src/backend/config.py): provider selection and credentials;
the values come from the process environment. -/
structure Cfg where
  AI_PROVIDER : String
  OPENAI_API_KEY : String
  GEMINI_API_KEY : String

/-- `Config.validate` (src/backend/config.py, lines 50-61): an empty
credential string is falsy, hence rejected for the active provider. -/
def Cfg.validate (c : Cfg) : Except String Unit :=
  if c.AI_PROVIDER = "openai" then
    if c.OPENAI_API_KEY = "" then
      .error ("OPENAI_API_KEY is required. Set it in .env file")
    else .ok ()
  else if c.AI_PROVIDER = "gemini" then
    if c.GEMINI_API_KEY = "" then
      .error ("GEMINI_API_KEY is required. Set it in .env file")
    else .ok ()
  else .error ("Invalid AI_PROVIDER: " ++ c.AI_PROVIDER ++
    ". Must be openai or gemini")

/-- The keys of `config.PERSONAS` (src/backend/config.py, lines 26-39);
`persona not in config.PERSONAS` tests membership here. -/
def PERSONAS : List String := ["CFO", "Investor", "Board"]

/-- Chart data is out of scope of every claim; it is carried opaquely as a
key-value list (`generate_all_charts` output, src/backend/charts.py). -/
def ChartsData : Type := List (String × String)

/-- The empty charts dict. -/
def ChartsData.empty : ChartsData := []

/-- `FinancialAnalysisState` (src/backend/ai_agent.py, lines 62-72) with the
initial defaults of `run_langgraph_analysis` (lines 331-341). -/
structure PState where
  financial_data : Df
  persona : String
  metrics : MetricsDict := {}
  insights : Insights := {}
  risks : List Risk := []
  charts_data : ChartsData := ChartsData.empty
  recommendations : List String := []
  trends : List (String × String) := []
  error : String := ""

/-- The environment of one pipeline run: the configuration, the clock, and
the outcomes of the operations whose implementations live outside the
modelled rational arithmetic.  `metricsExc` is an exception raised inside the
metrics stage (e.g. pandas/NumPy failing on a non-numeric column);
`insightResp` is `parse_insights(generate_ai_response(...))` or the raised
exception; `riskResp` is `parse_risk_response(generate_ai_response(...))` or
the raised exception; `chartsResp` is `generate_all_charts(df)` or the
raised exception. -/
structure Env where
  cfg : Cfg
  now : String
  metricsExc : Option String
  insightResp : Except String Insights
  riskResp : Except String (List Risk)
  chartsResp : Except String ChartsData

/-- `calculate_metrics_node` (src/backend/ai_agent.py, lines 75-103):
both computations run before either assignment, so a raised exception leaves
`metrics` and `trends` untouched and only records the error. -/
def calculate_metrics_node (env : Env) (state : PState) : PState :=
  match env.metricsExc with
  | some msg => { state with error := "Metrics calculation failed: " ++ msg }
  | none =>
    { state with
        metrics := calculate_all_metrics state.financial_data env.now
        trends := identify_metric_trends state.financial_data 3 }

/-- The fallback insight structure of `generate_insights_node`
(src/backend/ai_agent.py, lines 138-144). -/
def fallbackInsights : Insights :=
  { key_takeaways := ["Unable to generate AI insights"],
    summary := "Analysis pending due to AI service error" }

/-- `generate_insights_node` (src/backend/ai_agent.py, lines 106-146). -/
def generate_insights_node (env : Env) (state : PState) : PState :=
  match env.insightResp with
  | .ok ins => { state with insights := ins }
  | .error e =>
    { state with error := "Insight generation failed: " ++ e,
                 insights := fallbackInsights }

/-- `identify_risks_node` (src/backend/ai_agent.py, lines 149-194): the AI
call has its own inner handler that falls back to `[]` *without* recording an
error; the rule evaluation and the merge are total here, so the outer
handler never fires in the model. -/
def identify_risks_node (env : Env) (state : PState) : PState :=
  let rule_based_risks := identify_risks state.metrics
  let ai_risks := match env.riskResp with
    | .ok l => l
    | .error _ => []
  { state with risks := dedup_risks (rule_based_risks ++ ai_risks) }

/-- `create_charts_node` (src/backend/ai_agent.py, lines 197-223). -/
def create_charts_node (env : Env) (state : PState) : PState :=
  match env.chartsResp with
  | .ok cd => { state with charts_data := cd }
  | .error e =>
    { state with error := "Chart generation failed: " ++ e,
                 charts_data := ChartsData.empty }

/-- `generate_recommendations_node` (src/backend/ai_agent.py, lines 226-269):
the case-insensitive merge and the cap at 7 run only when the insight result
carries a nonempty recommendation list. -/
def generate_recommendations_node (state : PState) : PState :=
  match generate_recommendations state.metrics state.risks state.persona with
  | .error e =>
    { state with error := "Recommendation generation failed: " ++ e,
                 recommendations := [] }
  | .ok recommendations =>
    let insight_recommendations := state.insights.recommendations
    let final :=
      if insight_recommendations ≠ [] then
        (dedup_recs (recommendations ++ insight_recommendations)).take 7
      else recommendations
    { state with recommendations := final }

/-- The five stages of the compiled LangGraph workflow in edge order
(src/backend/ai_agent.py, lines 272-297). -/
def runStages (env : Env) (s : PState) : PState :=
  generate_recommendations_node (create_charts_node env
    (identify_risks_node env (generate_insights_node env
      (calculate_metrics_node env s))))

/-- The response mapping returned by `run_langgraph_analysis`
(src/backend/ai_agent.py, lines 351-374); the exception shape (status
`"error"`) has no `trends` key, modelled by `trends = none`. -/
structure RunResult where
  status : String
  persona : String
  metrics : MetricsDict
  insights : Insights
  risks : List Risk
  charts_data : ChartsData
  recommendations : List String
  trends : Option (List (String × String))
  error : String

/-- `run_langgraph_analysis(financial_data, persona)`
(src/backend/ai_agent.py, lines 300-374): persona correction, configuration
validation (whose failure is caught by the outer handler before any stage
runs), then the five stages and the response assembly. -/
def run_langgraph_analysis (env : Env) (financial_data : Df)
    (persona : String) : RunResult :=
  let persona := if persona ∈ PERSONAS then persona else "CFO"
  match env.cfg.validate with
  | .error e =>
    { status := "error", error := e, persona := persona, metrics := {},
      insights := {}, risks := [], charts_data := ChartsData.empty,
      recommendations := [], trends := none }
  | .ok _ =>
    let result := runStages env
      { financial_data := financial_data, persona := persona }
    { status := if result.error = "" then "success" else "partial",
      persona := persona, metrics := result.metrics,
      insights := result.insights, risks := result.risks,
      charts_data := result.charts_data,
      recommendations := result.recommendations,
      trends := some result.trends, error := result.error }

/-! ## Properties of the first-occurrence deduplication -/

/-- The key set accumulated by `dedupKeyGo` after processing a list. -/
def seenAfter {α κ : Type} [DecidableEq κ] (key : α → κ) :
    List α → List κ → List κ
| [], seen => seen
| x :: xs, seen =>
  if key x ∈ seen then seenAfter key xs seen
  else seenAfter key xs (key x :: seen)

theorem dedupKeyGo_filter {α κ : Type} [DecidableEq κ] (key : α → κ) (t : κ) :
    ∀ (l : List α) (seen : List κ),
      (dedupKeyGo key l seen).filter (fun a => decide (key a = t)) =
        if t ∈ seen then [] else (l.filter (fun a => decide (key a = t))).take 1 := by
  intro l
  induction l with
  | nil =>
    intro seen
    simp [dedupKeyGo]
  | cons x xs ih =>
    intro seen
    by_cases hx : key x ∈ seen
    · rw [dedupKeyGo, if_pos hx, ih seen]
      by_cases ht : t ∈ seen
      · simp [ht]
      · have hxt : ¬ (key x = t) := fun h => ht (h ▸ hx)
        simp [ht, hxt]
    · rw [dedupKeyGo, if_neg hx]
      by_cases hxt : key x = t
      · have ht : t ∉ seen := fun h => hx (hxt ▸ h)
        rw [List.filter_cons_of_pos (by simpa using hxt), ih (key x :: seen)]
        rw [if_pos (by simp [hxt])]
        rw [if_neg ht, List.filter_cons_of_pos (by simpa using hxt)]
        simp
      · rw [List.filter_cons_of_neg (by simpa using hxt), ih (key x :: seen)]
        have hmem : (t ∈ key x :: seen) ↔ t ∈ seen := by
          simp only [List.mem_cons]
          constructor
          · rintro (h | h)
            · exact absurd h.symm hxt
            · exact h
          · exact Or.inr
        rw [List.filter_cons_of_neg (by simpa using hxt)]
        by_cases ht : t ∈ seen
        · rw [if_pos (hmem.mpr ht), if_pos ht]
        · rw [if_neg (fun h => ht (hmem.mp h)), if_neg ht]

theorem dedupKeyGo_append {α κ : Type} [DecidableEq κ] (key : α → κ) :
    ∀ (l₁ l₂ : List α) (seen : List κ),
      dedupKeyGo key (l₁ ++ l₂) seen =
        dedupKeyGo key l₁ seen ++ dedupKeyGo key l₂ (seenAfter key l₁ seen) := by
  intro l₁
  induction l₁ with
  | nil =>
    intro l₂ seen
    simp [dedupKeyGo, seenAfter]
  | cons x xs ih =>
    intro l₂ seen
    simp only [List.cons_append, dedupKeyGo, seenAfter]
    by_cases hx : key x ∈ seen
    · rw [if_pos hx, if_pos hx, if_pos hx]
      exact ih l₂ seen
    · rw [if_neg hx, if_neg hx, if_neg hx, List.cons_append]
      exact congrArg (x :: ·) (ih l₂ (key x :: seen))

theorem subset_seenAfter {α κ : Type} [DecidableEq κ] (key : α → κ) :
    ∀ (l : List α) (seen : List κ), seen ⊆ seenAfter key l seen := by
  intro l
  induction l with
  | nil =>
    intro seen
    simp [seenAfter]
  | cons x xs ih =>
    intro seen
    simp only [seenAfter]
    by_cases hx : key x ∈ seen
    · rw [if_pos hx]
      exact ih seen
    · rw [if_neg hx]
      exact fun a ha => ih _ (List.mem_cons_of_mem _ ha)

theorem key_mem_seenAfter {α κ : Type} [DecidableEq κ] (key : α → κ) :
    ∀ (l : List α) (seen : List κ) (a : α), a ∈ l → key a ∈ seenAfter key l seen := by
  intro l
  induction l with
  | nil =>
    intro seen a ha
    simp at ha
  | cons x xs ih =>
    intro seen a ha
    simp only [seenAfter]
    rcases List.mem_cons.mp ha with h | h
    · subst h
      by_cases hx : key a ∈ seen
      · rw [if_pos hx]
        exact subset_seenAfter key xs seen hx
      · rw [if_neg hx]
        exact subset_seenAfter key xs _ (List.mem_cons_self _ _)
    · by_cases hx : key x ∈ seen
      · rw [if_pos hx]
        exact ih seen a h
      · rw [if_neg hx]
        exact ih _ a h

theorem dedupKeyGo_eq_nil {α κ : Type} [DecidableEq κ] (key : α → κ) :
    ∀ (l : List α) (seen : List κ), (∀ a ∈ l, key a ∈ seen) →
      dedupKeyGo key l seen = [] := by
  intro l
  induction l with
  | nil =>
    intro seen _
    simp [dedupKeyGo]
  | cons x xs ih =>
    intro seen h
    simp only [dedupKeyGo]
    rw [if_pos (h x (List.mem_cons_self _ _))]
    exact ih seen (fun a ha => h a (List.mem_cons_of_mem _ ha))

theorem dedupKeyGo_eq_self {α κ : Type} [DecidableEq κ] (key : α → κ) :
    ∀ (l : List α) (seen : List κ), (l.map key).Nodup →
      (∀ a ∈ l, key a ∉ seen) → dedupKeyGo key l seen = l := by
  intro l
  induction l with
  | nil =>
    intro seen _ _
    simp [dedupKeyGo]
  | cons x xs ih =>
    intro seen hnd hs
    rw [List.map_cons] at hnd
    have hnd' := List.nodup_cons.mp hnd
    simp only [dedupKeyGo]
    rw [if_neg (hs x (List.mem_cons_self _ _))]
    congr 1
    refine ih (key x :: seen) hnd'.2 ?_
    intro a ha hmem
    rcases List.mem_cons.mp hmem with h | h
    · exact hnd'.1 (h ▸ List.mem_map_of_mem key ha)
    · exact hs a (List.mem_cons_of_mem _ ha) h

theorem dedup_risks_idem (l : List Risk) : dedup_risks (l ++ l) = dedup_risks l := by
  unfold dedup_risks
  rw [dedupKeyGo_append]
  rw [dedupKeyGo_eq_nil _ _ _ (fun a ha => key_mem_seenAfter _ l [] a ha)]
  simp

/-- Claim C6: the risk merge keeps, for each title, exactly the first
occurrence of that title in the concatenation (so a rule-based entry wins a
title collision against a later AI-sourced one and keeps its fields), and
the merge is idempotent: merging a list with itself yields the merge of the
list, which is the list itself when its titles are distinct. -/
theorem risk_merge_first_wins_and_idempotent :
    (∀ (l : List Risk) (t : Option String),
        (dedup_risks l).filter (fun r => decide (r.title = t)) =
          (l.filter (fun r => decide (r.title = t))).take 1) ∧
    (∀ l : List Risk, dedup_risks (l ++ l) = dedup_risks l) ∧
    (∀ l : List Risk,
        (l.map (fun r => r.title)).Nodup → dedup_risks (l ++ l) = l) := by
  refine ⟨?_, dedup_risks_idem, ?_⟩
  · intro l t
    have h := dedupKeyGo_filter (fun r : Risk => r.title) t l []
    simpa [dedup_risks] using h
  · intro l hnd
    rw [dedup_risks_idem l]
    unfold dedup_risks
    exact dedupKeyGo_eq_self _ l [] hnd (by simp)

/-- Scenario E instance: a rule-shaped risk entry. -/
def scenarioERule : Risk :=
  { category := some ("growth"), severity := some ("medium"),
    title := some ("Revenue Decline"),
    description := some ("Revenue is declining at -8.33% year-over-year"),
    indicators := ["Revenue growth: -8.33%"],
    impact := some ("Reduced profitability and potential market share loss"),
    metric_value := some (.fin (-8)) }

/-- Scenario E instance: an AI-sourced risk entry with the same title. -/
def scenarioEAI : Risk :=
  { category := some ("market"), severity := some ("high"),
    title := some ("Revenue Decline"),
    description := some ("AI-flagged revenue decline") }

/-- Witness for C6 at Scenario E: the rule-based entry survives with its
fields; merging a singleton with itself returns the singleton. -/
theorem risk_merge_scenarioE_witness :
    (dedup_risks [scenarioERule, scenarioEAI]).filter
        (fun r => decide (r.title = some ("Revenue Decline"))) = [scenarioERule] ∧
    dedup_risks ([scenarioERule] ++ [scenarioERule]) = [scenarioERule] ∧
    dedup_risks [scenarioERule, scenarioEAI] = [scenarioERule] := by
  refine ⟨?_, ?_, ?_⟩
  · rw [risk_merge_first_wins_and_idempotent.1 [scenarioERule, scenarioEAI]
      (some ("Revenue Decline"))]
    decide
  · exact risk_merge_first_wins_and_idempotent.2.2 [scenarioERule] (by decide)
  · decide

/-- Claim C10: risks lacking a `title` key all share the dedup key
`None`, so at most one untitled entry (the first) survives the merge. -/
theorem untitled_risks_single_survivor (l : List Risk)
    (h2 : 2 ≤ (l.filter (fun r => decide (r.title = none))).length) :
    (dedup_risks l).filter (fun r => decide (r.title = none)) =
      (l.filter (fun r => decide (r.title = none))).take 1 ∧
    ((dedup_risks l).filter (fun r => decide (r.title = none))).length = 1 := by
  have h := dedupKeyGo_filter (fun r : Risk => r.title) none l []
  have h' : (dedup_risks l).filter (fun r => decide (r.title = none)) =
      (l.filter (fun r => decide (r.title = none))).take 1 := by
    simpa [dedup_risks] using h
  refine ⟨h', ?_⟩
  rw [h', List.length_take, Nat.min_eq_left (by omega)]

/-- An untitled risk entry (e.g. a malformed AI risk). -/
def untitledR1 : Risk :=
  { severity := some ("high"), description := some ("first untitled") }

/-- Another untitled risk entry. -/
def untitledR2 : Risk :=
  { severity := some ("low"), description := some ("second untitled") }

/-- Witness for C10: of two untitled risks only the first survives. -/
theorem untitled_risks_single_survivor_witness :
    2 ≤ ([untitledR1, untitledR2].filter (fun r => decide (r.title = none))).length ∧
    (dedup_risks [untitledR1, untitledR2]).filter
      (fun r => decide (r.title = none)) = [untitledR1] ∧
    dedup_risks [untitledR1, untitledR2] = [untitledR1] := by
  refine ⟨by decide, ?_, by decide⟩
  rw [(untitled_risks_single_survivor [untitledR1, untitledR2] (by decide)).1]
  decide

/-! ## Margins on zero revenue (C4) -/

theorem Df.col_length (df : Df) (c : String) (l : List ℚ) (hwf : df.WF)
    (h : df.col c = some l) : l.length = df.nrows := by
  unfold Df.col at h
  cases hf : df.cols.find? (fun p => decide (p.1 = c)) with
  | none => rw [hf] at h; simp at h
  | some p =>
    rw [hf] at h
    simp at h
    rw [← h]
    exact hwf p (List.mem_of_find?_eq_some hf)

theorem ilocLast_ok (l : List ℚ) (v : ℚ) (h : l.getLast? = some v) :
    ilocLast l = .ok v := by
  unfold ilocLast
  rw [h]

theorem exists_getLast?_of_ne_nil (l : List ℚ) (h : l ≠ []) :
    ∃ v, l.getLast? = some v := by
  cases hg : l.getLast? with
  | none => exact absurd (List.getLast?_eq_none_iff.mp hg) h
  | some v => exact ⟨v, rfl⟩

/-- Claim C4 (amended): when the latest revenue is 0, `calculate_margin`
reports `gross_margin = 0` but simply *omits* the operating and net margins
(their keys are absent, not 0), and no exception escapes (no error entry,
assuming a well-formed frame). -/
theorem margin_zero_revenue (df : Df) (rv cv : List ℚ)
    (hwf : df.WF) (hr : df.col ("revenue") = some rv)
    (hc : df.col ("cost_of_goods_sold") = some cv)
    (h0 : rv.getLast? = some 0) :
    ((calculate_margin df ("revenue") ("cost_of_goods_sold")).gross_margin = some 0) ∧
    ((calculate_margin df ("revenue") ("cost_of_goods_sold")).operating_margin = none) ∧
    ((calculate_margin df ("revenue") ("cost_of_goods_sold")).net_margin = none) ∧
    ((calculate_margin df ("revenue") ("cost_of_goods_sold")).error = none) := by
  have hrl := Df.col_length df _ rv hwf hr
  have hcl := Df.col_length df _ cv hwf hc
  have hrne : rv ≠ [] := by
    intro hnil
    rw [hnil] at h0
    simp at h0
  have hpos : 1 ≤ df.nrows := by
    rw [← hrl]
    exact List.length_pos.mpr hrne
  have hcne : cv ≠ [] := by
    intro hnil
    rw [hnil] at hcl
    simp at hcl
    omega
  have hgr : ilocLast rv = .ok 0 := ilocLast_ok _ _ h0
  obtain ⟨cva, hcva⟩ := exists_getLast?_of_ne_nil cv hcne
  have hgc := ilocLast_ok _ _ hcva
  have hgross : grossStep df ("revenue") ("cost_of_goods_sold") = .ok (some 0) := by
    simp only [grossStep, hr, hc]
    rw [hgr, hgc]
    rfl
  have hop : operatingStep df ("revenue") = .ok none := by
    cases hoc : df.col ("operating_income") with
    | none =>
      simp only [operatingStep, hoc, hr]
      rfl
    | some ov =>
      have hol := Df.col_length df _ ov hwf hoc
      have hone : ov ≠ [] := by
        intro hnil
        rw [hnil] at hol
        simp at hol
        omega
      obtain ⟨ova, hova⟩ := exists_getLast?_of_ne_nil ov hone
      simp only [operatingStep, hoc, hr]
      rw [ilocLast_ok _ _ hova, hgr]
      rfl
  have hnet : netStep df ("revenue") = .ok none := by
    cases hnc : df.col ("net_income") with
    | none =>
      simp only [netStep, hnc, hr]
      rfl
    | some nv =>
      have hnl := Df.col_length df _ nv hwf hnc
      have hnne : nv ≠ [] := by
        intro hnil
        rw [hnil] at hnl
        simp at hnl
        omega
      obtain ⟨nva, hnva⟩ := exists_getLast?_of_ne_nil nv hnne
      simp only [netStep, hnc, hr]
      rw [ilocLast_ok _ _ hnva, hgr]
      rfl
  have hbind : ∀ (a b : ℚ) (K : ℚ → ℚ → Except String (Option ℚ)),
      (do
        let pr ← Except.ok (ε := String) a
        let pc ← Except.ok (ε := String) b
        K pr pc) = K a b := fun _ _ _ => rfl
  obtain ⟨t, ht⟩ :
      ∃ t, trendStep df ("revenue") ("cost_of_goods_sold") (some 0) = .ok t := by
    simp only [trendStep, hr, hc]
    by_cases h2 : df.nrows ≥ 2
    · rw [if_pos h2]
      have hrv2 : ilocPrev rv = .ok (rv.getD (rv.length - 2) 0) := by
        unfold ilocPrev
        rw [if_pos (by omega)]
      have hcv2 : ilocPrev cv = .ok (cv.getD (cv.length - 2) 0) := by
        unfold ilocPrev
        rw [if_pos (by omega)]
      rw [hrv2, hcv2, hbind]
      by_cases hpr : rv.getD (rv.length - 2) 0 ≠ 0
      · exact ⟨some (round2 ((some 0).getD 0 -
            (rv.getD (rv.length - 2) 0 - cv.getD (cv.length - 2) 0) /
              rv.getD (rv.length - 2) 0 * 100)), by rw [if_pos hpr]; rfl⟩
      · exact ⟨none, by rw [if_neg hpr]; rfl⟩
    · exact ⟨none, by rw [if_neg h2]; rfl⟩
  have hex : calcMarginEx df ("revenue") ("cost_of_goods_sold") =
      (trendStep df ("revenue") ("cost_of_goods_sold") (some 0)).bind
        (fun a => Except.ok ({ gross_margin := some 0, operating_margin := none,
                               net_margin := none, margin_trend := a } : MarginsDict)) := by
    unfold calcMarginEx
    rw [hgross, hop, hnet]
    rfl
  rw [ht] at hex
  have hex' : calcMarginEx df ("revenue") ("cost_of_goods_sold") =
      .ok { gross_margin := some 0, operating_margin := none,
            net_margin := none, margin_trend := t } := hex.trans rfl
  unfold calculate_margin
  rw [hex']
  exact ⟨rfl, rfl, rfl, rfl⟩

/-- A single-period frame whose latest revenue is 0 while operating income
and net income are present. -/
def dfZeroRev : Df :=
  ⟨1, [("revenue", [0]), ("cost_of_goods_sold", [5]),
       ("operating_income", [3]), ("net_income", [2])]⟩

theorem dfZeroRev_wf : dfZeroRev.WF := by
  intro p hp
  fin_cases hp <;> rfl

/-- Counterexample to C4 as stated: with zero latest revenue, the operating
and net margins are *absent* from the result, not reported as 0. -/
theorem margin_zero_revenue_counterexample :
    ((calculate_margin dfZeroRev ("revenue") ("cost_of_goods_sold")).gross_margin = some 0) ∧
    ((calculate_margin dfZeroRev ("revenue") ("cost_of_goods_sold")).operating_margin = none) ∧
    ((calculate_margin dfZeroRev ("revenue") ("cost_of_goods_sold")).net_margin = none) ∧
    ((dfZeroRev.col ("operating_income")).isSome = true) ∧
    ((dfZeroRev.col ("net_income")).isSome = true) := by
  refine ⟨by decide, by decide, by decide, by decide, by decide⟩

/-- Witness for the amended C4 at the concrete frame. -/
theorem margin_zero_revenue_witness :
    ((calculate_margin dfZeroRev ("revenue") ("cost_of_goods_sold")).gross_margin = some 0) ∧
    ((calculate_margin dfZeroRev ("revenue") ("cost_of_goods_sold")).error = none) := by
  have h := margin_zero_revenue dfZeroRev [0] [5] dfZeroRev_wf (by decide)
    (by decide) (by decide)
  exact ⟨h.1, h.2.2.2⟩

/-! ## Heuristic insight parser item filter (C8) -/

/-- The four section-list fields of an insight dictionary, by section. -/
def Insights.sectionList (ins : Insights) : InsSection → List String
| .takeaways => ins.key_takeaways
| .strengths => ins.strengths
| .concerns => ins.concerns
| .recs => ins.recommendations
| .summary => []

/-- Claim C8 (amended): inside a recognized non-summary section, a
bulleted/numbered item is appended exactly when its stripped content is
nonempty and *strictly longer* than 10 characters; in particular an item of
exactly 10 characters is dropped. -/
theorem insight_item_filter (ins : Insights) (cur : Option InsSection)
    (rawLine : String) (sec : InsSection) (content : String)
    (hsec : sectionOf (pyStrip rawLine) cur = some sec)
    (hns : sec ≠ InsSection.summary)
    (hitem : itemContent (pyStrip rawLine) = some content) :
    (stepLine (ins, cur) rawLine).1 =
      (if content ≠ "" ∧ content.length > 10 then ins.addTo sec content
       else ins) ∧
    (stepLine (ins, cur) rawLine).2 = some sec := by
  constructor
  · simp only [stepLine, hsec, hitem]
    rw [if_pos hns]
  · simp only [stepLine, hsec]

/-- Counterexample to C8 as stated: a 10-character item in a recognized
section is filtered out (only items of 11 or more characters are kept). -/
theorem insight_item_len10_counterexample :
    ("abcdefghij").length = 10 ∧
    (parse_unstructured_insights ("key takeaways:\n- abcdefghij")).key_takeaways = [] ∧
    (parse_unstructured_insights ("key takeaways:\n- abcdefghijk")).key_takeaways
      = ["abcdefghijk"] := by
  exact ⟨by decide, by decide, by decide⟩

/-- Witness for the amended C8: an 11-character item is appended, a
10-character item is not. -/
theorem insight_item_filter_witness :
    ((stepLine ({}, some InsSection.takeaways) ("- abcdefghijk")).1 =
      Insights.addTo {} InsSection.takeaways ("abcdefghijk")) ∧
    ((stepLine ({}, some InsSection.takeaways) ("- abcdefghij")).1 =
      ({} : Insights)) := by
  constructor
  · have h := insight_item_filter {} (some InsSection.takeaways)
      ("- abcdefghijk") InsSection.takeaways ("abcdefghijk")
      (by decide) (by decide) (by decide)
    rw [h.1, if_pos (by decide)]
  · have h := insight_item_filter {} (some InsSection.takeaways)
      ("- abcdefghij") InsSection.takeaways ("abcdefghij")
      (by decide) (by decide) (by decide)
    rw [h.1, if_neg (by decide)]

/-! ## Severity ordering of the risk lists (C1) -/

theorem mem_filter_rank (l : List Risk) (i : ℕ) (r : Risk)
    (h : r ∈ l.filter (fun r => severityRank r == i)) : severityRank r = i := by
  have := (List.mem_filter.mp h).2
  simpa using this

theorem sortBySeverity_pairwise (l : List Risk) :
    List.Pairwise (fun a b => severityRank a ≤ severityRank b)
      (sortBySeverity l) := by
  unfold sortBySeverity
  have hpw : ∀ i : ℕ,
      List.Pairwise (fun a b => severityRank a ≤ severityRank b)
        (l.filter (fun r => severityRank r == i)) := by
    intro i
    refine List.pairwise_of_forall_mem_list ?_
    intro a ha b hb
    rw [mem_filter_rank l i a ha, mem_filter_rank l i b hb]
  rw [List.append_assoc, List.append_assoc]
  refine List.pairwise_append.mpr ⟨hpw 0, ?_, ?_⟩
  · refine List.pairwise_append.mpr ⟨hpw 1, ?_, ?_⟩
    · refine List.pairwise_append.mpr ⟨hpw 2, hpw 3, ?_⟩
      intro a ha b hb
      rw [mem_filter_rank l 2 a ha, mem_filter_rank l 3 b hb]
      omega
    · intro a ha b hb
      rw [mem_filter_rank l 1 a ha]
      rcases List.mem_append.mp hb with h | h
      · rw [mem_filter_rank l 2 b h]
        omega
      · rw [mem_filter_rank l 3 b h]
        omega
  · intro a ha b hb
    rw [mem_filter_rank l 0 a ha]
    omega

theorem severityRank_le_three (r : Risk) : severityRank r ≤ 3 := by
  cases h : r.severity with
  | none => simp [severityRank, h]
  | some s =>
    simp only [severityRank, h]
    split_ifs <;> omega

theorem sortBySeverity_stable (l : List Risk) (k : ℕ) :
    (sortBySeverity l).filter (fun r => severityRank r == k) =
      l.filter (fun r => severityRank r == k) := by
  have hfi : ∀ i : ℕ,
      (l.filter (fun r => severityRank r == i)).filter
          (fun r => severityRank r == k) =
        if i = k then l.filter (fun r => severityRank r == k) else [] := by
    intro i
    by_cases hik : i = k
    · subst hik
      rw [if_pos rfl]
      rw [List.filter_eq_self.mpr]
      intro r hr
      simpa using mem_filter_rank l i r hr
    · rw [if_neg hik]
      rw [List.filter_eq_nil_iff.mpr]
      intro r hr
      have := mem_filter_rank l i r hr
      simp only [beq_iff_eq]
      omega
  unfold sortBySeverity
  simp only [List.filter_append, hfi]
  by_cases hk : k ≤ 3
  · interval_cases k <;> simp
  · have hnil : l.filter (fun r => severityRank r == k) = [] := by
      rw [List.filter_eq_nil_iff.mpr]
      intro r hr
      have := severityRank_le_three r
      simp only [beq_iff_eq]
      omega
    rw [if_neg (by omega), if_neg (by omega), if_neg (by omega),
      if_neg (by omega), hnil]
    simp

/-- The AI-sourced risk list after the inner exception handler of
`identify_risks_node` (AI failure falls back to the empty list). -/
def aiRisksOf (env : Env) : List Risk :=
  match env.riskResp with
  | .ok l => l
  | .error _ => []

/-- Claim C1 (amended): `identify_risks` returns the rule-based list stably
sorted by severity (high before medium before low before unrecognized, and
equal severities keep rule-evaluation order), and the merged `state.risks`
is that sorted rule-based list followed by the AI-sourced risks in their
arrival order, deduplicated by title — the merged list is *not* re-sorted
after the merge. -/
theorem risks_severity_order_amended :
    (∀ (env : Env) (st : PState),
        (identify_risks_node env st).risks =
          dedup_risks (identify_risks st.metrics ++ aiRisksOf env)) ∧
    (∀ m : MetricsDict,
        List.Pairwise (fun a b => severityRank a ≤ severityRank b)
          (identify_risks m)) ∧
    (∀ (l : List Risk) (k : ℕ),
        (sortBySeverity l).filter (fun r => severityRank r == k) =
          l.filter (fun r => severityRank r == k)) := by
  refine ⟨fun env st => rfl, fun m => ?_, sortBySeverity_stable⟩
  unfold identify_risks
  exact sortBySeverity_pairwise _

/-- An AI-sourced low-severity risk. -/
def riskLowA : Risk := { severity := some ("low"), title := some ("A") }

/-- An AI-sourced high-severity risk. -/
def riskHighB : Risk := { severity := some ("high"), title := some ("B") }

/-- An environment whose AI risk call returns [low, high]. -/
def envUnsorted : Env :=
  { cfg := ⟨"openai", "k", ""⟩, now := "t", metricsExc := none,
    insightResp := .error ("unavailable"),
    riskResp := .ok [riskLowA, riskHighB],
    chartsResp := .error ("unavailable") }

/-- A pipeline state with empty metrics (no rule-based risks fire). -/
def stEmpty : PState := { financial_data := ⟨0, []⟩, persona := "CFO" }

/-- Counterexample to C1 as stated: with no rule-based risks and the AI
risks arriving as [low, high], the merged `state.risks` keeps that order,
which is not sorted by severity. -/
theorem risks_severity_order_counterexample :
    (identify_risks_node envUnsorted stEmpty).risks = [riskLowA, riskHighB] ∧
    severityRank riskLowA = 2 ∧ severityRank riskHighB = 0 ∧
    ¬ List.Pairwise (fun a b => severityRank a ≤ severityRank b)
        (identify_risks_node envUnsorted stEmpty).risks := by
  exact ⟨by decide, by decide, by decide, by decide⟩

/-! ## Recommendation merge (C7) -/

theorem generate_recommendations_len5 (m : MetricsDict) (risks : List Risk)
    (p : String) (l : List String)
    (h : generate_recommendations m risks p = .ok l) : l.length ≤ 5 := by
  unfold generate_recommendations at h
  cases hr : riskRecs p risks with
  | error e =>
    rw [hr] at h
    have h' : (Except.error e : Except String (List String)) = Except.ok l := h
    exact Except.noConfusion h'
  | ok rr =>
    rw [hr] at h
    have h' : Except.ok ((rr ++ marginRec m p ++ cfRec m p ++ growthRec m p).take 5)
        = Except.ok l := h
    have hl := Except.ok.inj h'
    rw [← hl]
    exact List.length_take_le _ _

/-- Claim C7 (amended): the rule-based recommendation list is capped at 5;
when the insight result carries a nonempty AI recommendation list, the final
`state.recommendations` is the concatenation (rule-based first) deduplicated
case-insensitively (first occurrence wins, order kept) and truncated to 7;
but when the AI list is *empty*, the rule-based list is returned as-is with
no case-insensitive deduplication pass. -/
theorem recommendations_merge_amended :
    (∀ (m : MetricsDict) (risks : List Risk) (p : String) (l : List String),
        generate_recommendations m risks p = .ok l → l.length ≤ 5) ∧
    (∀ (st : PState) (recs : List String),
        generate_recommendations st.metrics st.risks st.persona = .ok recs →
        (generate_recommendations_node st).recommendations =
          (if st.insights.recommendations ≠ [] then
            (dedup_recs (recs ++ st.insights.recommendations)).take 7
          else recs)) ∧
    (dedup_recs ["Reduce cost", "REDUCE COST", "Grow sales"] =
      ["Reduce cost", "Grow sales"]) := by
  refine ⟨generate_recommendations_len5, ?_, by decide⟩
  intro st recs h
  simp only [generate_recommendations_node, h]

/-- A high-severity liquidity risk titled `A`. -/
def riskHighUp : Risk :=
  { category := some ("liquidity"), severity := some ("high"),
    title := some ("A") }

/-- A high-severity liquidity risk titled `a` (same title up to case). -/
def riskHighLo : Risk :=
  { category := some ("liquidity"), severity := some ("high"),
    title := some ("a") }

/-- A state whose rule-based recommendations differ only by letter case and
whose insight result carries no AI recommendations. -/
def stCaseDup : PState :=
  { financial_data := ⟨0, []⟩, persona := "CFO",
    risks := [riskHighUp, riskHighLo] }

/-- Counterexample to C7 as stated: with an empty AI recommendation list the
node skips the case-insensitive merge, so two recommendations equal up to
case both survive (the claimed dedup would keep only one). -/
theorem recommendations_merge_counterexample :
    ((generate_recommendations_node stCaseDup).recommendations.length = 2) ∧
    (strLower ((generate_recommendations_node stCaseDup).recommendations.getD 0 "") =
      strLower ((generate_recommendations_node stCaseDup).recommendations.getD 1 "")) ∧
    ((generate_recommendations_node stCaseDup).recommendations.getD 0 "" ≠
      (generate_recommendations_node stCaseDup).recommendations.getD 1 "") ∧
    ((dedup_recs ((generate_recommendations_node stCaseDup).recommendations)).length
      = 1) := by
  exact ⟨by decide, by decide, by decide, by decide⟩

/-- A state carrying the claim's example AI recommendation list. -/
def stMergeEx : PState :=
  { financial_data := ⟨0, []⟩, persona := "CFO",
    insights := { recommendations := ["Reduce cost", "REDUCE COST", "Grow sales"] } }

/-- Witness for the amended C7 at the claim's example: the merge is
case-insensitive, order-preserving and capped. -/
theorem recommendations_merge_witness :
    generate_recommendations stMergeEx.metrics stMergeEx.risks stMergeEx.persona
      = .ok [] ∧
    (generate_recommendations_node stMergeEx).recommendations =
      ["Reduce cost", "Grow sales"] := by
  refine ⟨rfl, ?_⟩
  rw [recommendations_merge_amended.2.1 stMergeEx [] rfl]
  rw [if_pos (by decide)]
  decide

/-! ## Growth rate formula (C3) and CAGR (C5) -/

/-- Claim C3: for a present column with at least two periods, the reported
growth rate is the rounded relative change against the second-to-last value
when that value is nonzero; a zero previous value yields 0 when the current
value is also 0 and the infinite sentinel otherwise; the trend label follows
the sign of the raw growth rate. -/
theorem growth_rate_formula (df : Df) (column : String) (values : List ℚ)
    (hcol : df.col column = some values) (hlen : 2 ≤ values.length) :
    (values.getD (values.length - 2) 0 ≠ 0 →
      (calculate_growth df column 1).growth_rate =
        some (.fin (round2 ((values.getLastD 0 - values.getD (values.length - 2) 0) /
          |values.getD (values.length - 2) 0| * 100))) ∧
      (calculate_growth df column 1).trend = some
        (if 0 < (values.getLastD 0 - values.getD (values.length - 2) 0) /
              |values.getD (values.length - 2) 0| * 100 then "increasing"
         else if (values.getLastD 0 - values.getD (values.length - 2) 0) /
              |values.getD (values.length - 2) 0| * 100 < 0 then "decreasing"
         else "stable")) ∧
    (values.getD (values.length - 2) 0 = 0 → values.getLastD 0 = 0 →
      (calculate_growth df column 1).growth_rate = some (.fin 0)) ∧
    (values.getD (values.length - 2) 0 = 0 → values.getLastD 0 ≠ 0 →
      (calculate_growth df column 1).growth_rate = some .inf) ∧
    (calculate_growth df column 1).previous_value =
      some (values.getD (values.length - 2) 0) := by
  have hnotlt : ¬ (values.length < 2) := by omega
  have hgt : values.length > 1 := by omega
  have hidx : values.length - 1 - 1 = values.length - 2 := by omega
  simp only [calculate_growth, hcol]
  rw [if_neg hnotlt, if_pos hgt, hidx]
  refine ⟨?_, ?_, ?_, ?_⟩
  · intro hprev
    rw [if_pos hprev]
    constructor
    · rfl
    · simp only [PyNum.gtq, PyNum.ltq, decide_eq_true_eq]
  · intro hprev hcur
    rw [if_neg (by simpa using hprev), if_pos hcur]
    show some (round2P (PyNum.fin 0)) = some (PyNum.fin 0)
    simp only [round2P, Option.some.injEq, PyNum.fin.injEq]
    simp only [round2, roundHalfEven]
    norm_num
  · intro hprev hcur
    rw [if_neg (by simpa using hprev), if_neg hcur]
    rfl
  · rfl

/-- Scenario A frame: four periods of revenue. -/
def dfScenarioA : Df :=
  ⟨4, [("revenue", [1000000, 1150000, 1200000, 1100000])]⟩

/-- Witness for C3 at Scenario A: growth rate −8.33, trend decreasing. -/
theorem growth_rate_formula_witness :
    (calculate_growth dfScenarioA ("revenue") 1).growth_rate =
      some (.fin (-833/100)) ∧
    (calculate_growth dfScenarioA ("revenue") 1).trend = some ("decreasing") := by
  have h := growth_rate_formula dfScenarioA ("revenue")
    [1000000, 1150000, 1200000, 1100000] rfl (by norm_num)
  rw [show ([1000000, 1150000, 1200000, 1100000] : List ℚ).getLastD 0 = 1100000
      from rfl,
    show ([(1000000 : ℚ), 1150000, 1200000, 1100000]).getD
      (([(1000000 : ℚ), 1150000, 1200000, 1100000]).length - 2) 0 = 1200000
      from rfl] at h
  have hp := h.1 (by norm_num)
  have habs : |(1200000 : ℚ)| = 1200000 := abs_of_pos (by norm_num)
  rw [habs] at hp
  have harg : ((1100000 : ℚ) - 1200000) / 1200000 * 100 = -25/3 := by norm_num
  rw [harg] at hp
  constructor
  · rw [hp.1]
    have hval : round2 (-25/3 : ℚ) = -833/100 := by
      simp only [round2, roundHalfEven]
      norm_num
    rw [hval]
  · rw [hp.2, if_neg (by norm_num), if_pos (by norm_num)]

/-- Claim C5: the CAGR entry is Python `None` exactly when the first value
is not strictly positive; otherwise it stores the compound-growth float for
the ratio `last/first` and exponent `1/(n-1)`, whose value (for a
nonnegative ratio) is `round(((ratio ** (1/(n-1))) - 1) * 100, 2)`. -/
theorem cagr_gate_and_formula (df : Df) (column : String) (values : List ℚ)
    (hcol : df.col column = some values) (hlen : 2 ≤ values.length) :
    ((calculate_growth df column 1).cagr = some none ↔ values.headD 0 ≤ 0) ∧
    (0 < values.headD 0 →
      (calculate_growth df column 1).cagr =
        some (some ⟨values.getLastD 0 / values.headD 0, values.length - 1⟩)) ∧
    (∀ (r : ℚ) (n : ℕ), 0 ≤ r →
      (CagrX.mk r n).value =
        some (round2R ((((r : ℚ) : ℝ) ^ ((1 : ℝ)/(n : ℝ)) - 1) * 100))) := by
  have hnotlt : ¬ (values.length < 2) := by omega
  have hgt : values.length > 1 := by omega
  simp only [calculate_growth, hcol]
  rw [if_neg hnotlt]
  refine ⟨?_, ?_, ?_⟩
  · by_cases hf : values.headD 0 > 0
    · rw [if_pos hf]
      constructor
      · intro hcontr
        exact absurd hcontr (by simp)
      · intro hle
        exact absurd hf (not_lt.mpr hle)
    · rw [if_neg hf]
      simp only [not_lt] at hf
      constructor
      · intro _
        exact hf
      · intro _
        rfl
  · intro hf
    rw [if_pos hf]
  · intro r n hr
    unfold CagrX.value
    rw [if_pos hr]

theorem roundHalfEvenR_of_between (x : ℝ) (n : ℤ)
    (h1 : (n : ℝ) + 1/2 < x) (h2 : x < (n : ℝ) + 3/2) :
    roundHalfEvenR x = n + 1 := by
  simp only [roundHalfEvenR]
  rcases le_or_lt ((n : ℝ) + 1) x with h | h
  · have hf : ⌊x⌋ = n + 1 := by
      rw [Int.floor_eq_iff]
      push_cast
      constructor <;> linarith
    rw [hf]
    rw [if_pos (by push_cast [Int.cast_add]; linarith)]
  · have hf : ⌊x⌋ = n := by
      rw [Int.floor_eq_iff]
      exact ⟨by linarith, h⟩
    rw [hf]
    rw [if_neg (by linarith), if_pos (by linarith)]

/-- The stored Scenario A CAGR float evaluates to 3.23: bounded by the cubes
`1.03225^3 < 1.1 < 1.03235^3`, the cube root of 1.1 lies strictly between
1.03225 and 1.03235, so the percentage lies in (3.225, 3.235) and rounds to
3.23. -/
theorem cagr_scenarioA_value :
    (CagrX.mk (11/10) 3).value = some ((323 : ℝ)/100) := by
  have hx3 : ((11/10 : ℝ) ^ ((1:ℝ)/3)) ^ (3 : ℕ) = 11/10 := by
    rw [← Real.rpow_natCast ((11/10 : ℝ) ^ ((1:ℝ)/3)) 3]
    rw [← Real.rpow_mul (by norm_num : (0:ℝ) ≤ 11/10)]
    norm_num
  have hxpos : (0:ℝ) < (11/10 : ℝ) ^ ((1:ℝ)/3) :=
    Real.rpow_pos_of_pos (by norm_num) _
  have hlow : (103225/100000 : ℝ) < (11/10 : ℝ) ^ ((1:ℝ)/3) := by
    by_contra hle
    push_neg at hle
    have hc : ((11/10 : ℝ) ^ ((1:ℝ)/3)) ^ (3:ℕ) ≤ (103225/100000 : ℝ) ^ (3:ℕ) :=
      pow_le_pow_left₀ (le_of_lt hxpos) hle 3
    rw [hx3] at hc
    norm_num at hc
  have hhigh : (11/10 : ℝ) ^ ((1:ℝ)/3) < (103235/100000 : ℝ) := by
    by_contra hle
    push_neg at hle
    have hc : (103235/100000 : ℝ) ^ (3:ℕ) ≤ ((11/10 : ℝ) ^ ((1:ℝ)/3)) ^ (3:ℕ) :=
      pow_le_pow_left₀ (by norm_num) hle 3
    rw [hx3] at hc
    norm_num at hc
  unfold CagrX.value
  rw [if_pos (by norm_num)]
  have hratio : (((11/10 : ℚ)) : ℝ) = 11/10 := by norm_num
  have hexp : ((1:ℝ)/(((3:ℕ) : ℝ))) = (1:ℝ)/3 := by norm_num
  show some (round2R ((((11/10 : ℚ) : ℝ) ^ ((1:ℝ)/(((3:ℕ)) : ℝ)) - 1) * 100))
    = some ((323 : ℝ)/100)
  rw [hratio, hexp]
  have hr : roundHalfEvenR ((((11/10 : ℝ) ^ ((1:ℝ)/3) - 1) * 100) * 100)
      = 322 + 1 := by
    refine roundHalfEvenR_of_between _ 322 ?_ ?_
    · push_cast
      linarith
    · push_cast
      linarith
  simp only [round2R]
  rw [hr]
  norm_num

/-- Witness for C5 at Scenario A: the CAGR gate passes (first value
positive), the stored ratio is 1.1 with exponent 1/3, and its value is
exactly 3.23 after rounding. -/
theorem cagr_gate_and_formula_witness :
    (calculate_growth dfScenarioA ("revenue") 1).cagr =
      some (some (CagrX.mk (11/10) 3)) ∧
    (CagrX.mk (11/10) 3).value = some ((323 : ℝ)/100) := by
  constructor
  · have h := (cagr_gate_and_formula dfScenarioA ("revenue")
      [1000000, 1150000, 1200000, 1100000] rfl (by norm_num)).2.1 (by norm_num)
    rw [h]
    rw [show ([1000000, 1150000, 1200000, 1100000] : List ℚ).getLastD 0 = 1100000
        from rfl,
      show ([1000000, 1150000, 1200000, 1100000] : List ℚ).headD 0 = 1000000
        from rfl,
      show ([1000000, 1150000, 1200000, 1100000] : List ℚ).length - 1 = 3
        from rfl]
    norm_num [CagrX.mk.injEq]
  · exact cagr_scenarioA_value

/-! ## Pipeline orchestration (C2, C9) -/

theorem append_ne_empty (p s : String) (hp : p ≠ "") : p ++ s ≠ "" := by
  intro h
  apply hp
  have hd := congrArg String.data h
  rw [String.data_append] at hd
  have h1 := (List.append_eq_nil.mp hd).1
  cases p with
  | mk d =>
    cases h1
    rfl

/-- Stages 2-5 of the workflow (everything after the metrics stage). -/
def postMetricsStages (env : Env) (t : PState) : PState :=
  generate_recommendations_node (create_charts_node env
    (identify_risks_node env (generate_insights_node env t)))

theorem runStages_eq (env : Env) (s : PState) :
    runStages env s = postMetricsStages env (calculate_metrics_node env s) := rfl

theorem insights_node_preserve (env : Env) (t : PState) :
    (generate_insights_node env t).metrics = t.metrics ∧
    (generate_insights_node env t).trends = t.trends ∧
    (generate_insights_node env t).persona = t.persona ∧
    (t.error ≠ "" → (generate_insights_node env t).error ≠ "") := by
  cases hi : env.insightResp with
  | ok ins =>
    have he : generate_insights_node env t = { t with insights := ins } := by
      simp only [generate_insights_node, hi]
    rw [he]
    exact ⟨rfl, rfl, rfl, fun h => h⟩
  | error e =>
    have he : generate_insights_node env t =
        { t with error := "Insight generation failed: " ++ e,
                 insights := fallbackInsights } := by
      simp only [generate_insights_node, hi]
    rw [he]
    exact ⟨rfl, rfl, rfl, fun _ => append_ne_empty _ _ (by decide)⟩

theorem risks_node_preserve (env : Env) (t : PState) :
    (identify_risks_node env t).metrics = t.metrics ∧
    (identify_risks_node env t).trends = t.trends ∧
    (identify_risks_node env t).persona = t.persona ∧
    (identify_risks_node env t).error = t.error :=
  ⟨rfl, rfl, rfl, rfl⟩

theorem charts_node_preserve (env : Env) (t : PState) :
    (create_charts_node env t).metrics = t.metrics ∧
    (create_charts_node env t).trends = t.trends ∧
    (create_charts_node env t).persona = t.persona ∧
    (t.error ≠ "" → (create_charts_node env t).error ≠ "") := by
  cases hc : env.chartsResp with
  | ok cd =>
    have he : create_charts_node env t = { t with charts_data := cd } := by
      simp only [create_charts_node, hc]
    rw [he]
    exact ⟨rfl, rfl, rfl, fun h => h⟩
  | error e =>
    have he : create_charts_node env t =
        { t with error := "Chart generation failed: " ++ e,
                 charts_data := ChartsData.empty } := by
      simp only [create_charts_node, hc]
    rw [he]
    exact ⟨rfl, rfl, rfl, fun _ => append_ne_empty _ _ (by decide)⟩

theorem rec_node_preserve (t : PState) :
    (generate_recommendations_node t).metrics = t.metrics ∧
    (generate_recommendations_node t).trends = t.trends ∧
    (t.error ≠ "" → (generate_recommendations_node t).error ≠ "") := by
  cases hg : generate_recommendations t.metrics t.risks t.persona with
  | ok recs =>
    have he : generate_recommendations_node t =
        { t with recommendations :=
            if t.insights.recommendations ≠ [] then
              (dedup_recs (recs ++ t.insights.recommendations)).take 7
            else recs } := by
      simp only [generate_recommendations_node, hg]
    rw [he]
    exact ⟨rfl, rfl, fun h => h⟩
  | error e =>
    have he : generate_recommendations_node t =
        { t with error := "Recommendation generation failed: " ++ e,
                 recommendations := [] } := by
      simp only [generate_recommendations_node, hg]
    rw [he]
    exact ⟨rfl, rfl, fun _ => append_ne_empty _ _ (by decide)⟩

theorem postMetricsStages_preserve (env : Env) (t : PState) :
    (postMetricsStages env t).metrics = t.metrics ∧
    (postMetricsStages env t).trends = t.trends ∧
    (t.error ≠ "" → (postMetricsStages env t).error ≠ "") := by
  obtain ⟨i1, i2, i3, i4⟩ := insights_node_preserve env t
  obtain ⟨r1, r2, r3, r4⟩ :=
    risks_node_preserve env (generate_insights_node env t)
  obtain ⟨c1, c2, c3, c4⟩ :=
    charts_node_preserve env (identify_risks_node env (generate_insights_node env t))
  obtain ⟨g1, g2, g3⟩ := rec_node_preserve (create_charts_node env
    (identify_risks_node env (generate_insights_node env t)))
  refine ⟨?_, ?_, ?_⟩
  · rw [postMetricsStages, g1, c1, r1, i1]
  · rw [postMetricsStages, g2, c2, r2, i2]
  · intro h
    rw [postMetricsStages]
    exact g3 (c4 (r4 ▸ i4 h))

/-- The initial `PState` built by `run_langgraph_analysis`. -/
def initState (df : Df) (p : String) : PState :=
  { financial_data := df, persona := p }

/-- The response shape after a successful configuration validation. -/
theorem run_ok_shape (env : Env) (df : Df) (persona : String)
    (hok : env.cfg.validate = .ok ()) :
    run_langgraph_analysis env df persona =
      ⟨if (runStages env (initState df
          (if persona ∈ PERSONAS then persona else "CFO"))).error = ""
        then "success" else "partial",
       (if persona ∈ PERSONAS then persona else "CFO"),
       (runStages env (initState df
         (if persona ∈ PERSONAS then persona else "CFO"))).metrics,
       (runStages env (initState df
         (if persona ∈ PERSONAS then persona else "CFO"))).insights,
       (runStages env (initState df
         (if persona ∈ PERSONAS then persona else "CFO"))).risks,
       (runStages env (initState df
         (if persona ∈ PERSONAS then persona else "CFO"))).charts_data,
       (runStages env (initState df
         (if persona ∈ PERSONAS then persona else "CFO"))).recommendations,
       some ((runStages env (initState df
         (if persona ∈ PERSONAS then persona else "CFO"))).trends),
       (runStages env (initState df
         (if persona ∈ PERSONAS then persona else "CFO"))).error⟩ := by
  simp only [run_langgraph_analysis, hok]
  rfl

/-- Claim C2: given a valid configuration, the orchestrator always returns
(model: it is a total function); the status is `"success"` exactly when the
final error string is empty and `"partial"` otherwise; forcing the metrics
stage to fail leaves the metrics and trends at their defaults and degrades
the status to `"partial"`, and with the AI and chart calls failing too every
remaining key holds its documented fallback/default value. -/
theorem pipeline_status_and_defaults (env : Env) (df : Df) (persona : String)
    (hok : env.cfg.validate = .ok ()) :
    ((run_langgraph_analysis env df persona).status = "success" ↔
      (run_langgraph_analysis env df persona).error = "") ∧
    ((run_langgraph_analysis env df persona).status = "success" ∨
      (run_langgraph_analysis env df persona).status = "partial") ∧
    (∀ msg, env.metricsExc = some msg →
      (run_langgraph_analysis env df persona).status = "partial" ∧
      (run_langgraph_analysis env df persona).metrics = {} ∧
      (run_langgraph_analysis env df persona).trends = some []) ∧
    (∀ msg ei er ec, env.metricsExc = some msg → env.insightResp = .error ei →
      env.riskResp = .error er → env.chartsResp = .error ec →
      (run_langgraph_analysis env df persona).insights = fallbackInsights ∧
      (run_langgraph_analysis env df persona).risks = [] ∧
      (run_langgraph_analysis env df persona).charts_data = ChartsData.empty ∧
      (run_langgraph_analysis env df persona).recommendations = []) := by
  rw [run_ok_shape env df persona hok]
  refine ⟨?_, ?_, ?_, ?_⟩
  · by_cases he : (runStages env (initState df
        (if persona ∈ PERSONAS then persona else "CFO"))).error = ""
    · rw [if_pos he]
      exact ⟨fun _ => he, fun _ => rfl⟩
    · rw [if_neg he]
      constructor
      · intro h
        exact absurd (show ("partial" : String) = "success" from h) (by decide)
      · intro h
        exact absurd h he
  · by_cases he : (runStages env (initState df
        (if persona ∈ PERSONAS then persona else "CFO"))).error = ""
    · rw [if_pos he]
      exact Or.inl rfl
    · rw [if_neg he]
      exact Or.inr rfl
  · intro msg hm
    have h1 : calculate_metrics_node env (initState df
        (if persona ∈ PERSONAS then persona else "CFO")) =
        ⟨df, (if persona ∈ PERSONAS then persona else "CFO"),
         {}, {}, [], ChartsData.empty, [], [],
         "Metrics calculation failed: " ++ msg⟩ := by
      simp only [calculate_metrics_node, hm]
      rfl
    have hpres := postMetricsStages_preserve env
      ⟨df, (if persona ∈ PERSONAS then persona else "CFO"),
       {}, {}, [], ChartsData.empty, [], [],
       "Metrics calculation failed: " ++ msg⟩
    have herr : (runStages env (initState df
        (if persona ∈ PERSONAS then persona else "CFO"))).error ≠ "" := by
      rw [runStages_eq, h1]
      exact hpres.2.2 (append_ne_empty _ _ (by decide))
    refine ⟨by rw [if_neg herr], ?_, ?_⟩
    · rw [runStages_eq, h1]
      exact hpres.1
    · rw [runStages_eq, h1]
      exact congrArg some hpres.2.1
  · intro msg ei er ec hm hi hr hc
    have h1 : calculate_metrics_node env (initState df
        (if persona ∈ PERSONAS then persona else "CFO")) =
        ⟨df, (if persona ∈ PERSONAS then persona else "CFO"),
         {}, {}, [], ChartsData.empty, [], [],
         "Metrics calculation failed: " ++ msg⟩ := by
      simp only [calculate_metrics_node, hm]
      rfl
    have h2 : generate_insights_node env
        ⟨df, (if persona ∈ PERSONAS then persona else "CFO"),
         {}, {}, [], ChartsData.empty, [], [],
         "Metrics calculation failed: " ++ msg⟩ =
        ⟨df, (if persona ∈ PERSONAS then persona else "CFO"),
         {}, fallbackInsights, [], ChartsData.empty, [], [],
         "Insight generation failed: " ++ ei⟩ := by
      simp only [generate_insights_node, hi]
    have h3 : identify_risks_node env
        ⟨df, (if persona ∈ PERSONAS then persona else "CFO"),
         {}, fallbackInsights, [], ChartsData.empty, [], [],
         "Insight generation failed: " ++ ei⟩ =
        ⟨df, (if persona ∈ PERSONAS then persona else "CFO"),
         {}, fallbackInsights, [], ChartsData.empty, [], [],
         "Insight generation failed: " ++ ei⟩ := by
      simp only [identify_risks_node, hr]
      rfl
    have h4 : create_charts_node env
        ⟨df, (if persona ∈ PERSONAS then persona else "CFO"),
         {}, fallbackInsights, [], ChartsData.empty, [], [],
         "Insight generation failed: " ++ ei⟩ =
        ⟨df, (if persona ∈ PERSONAS then persona else "CFO"),
         {}, fallbackInsights, [], ChartsData.empty, [], [],
         "Chart generation failed: " ++ ec⟩ := by
      simp only [create_charts_node, hc]
    have h5 : generate_recommendations_node
        ⟨df, (if persona ∈ PERSONAS then persona else "CFO"),
         {}, fallbackInsights, [], ChartsData.empty, [], [],
         "Chart generation failed: " ++ ec⟩ =
        ⟨df, (if persona ∈ PERSONAS then persona else "CFO"),
         {}, fallbackInsights, [], ChartsData.empty, [], [],
         "Chart generation failed: " ++ ec⟩ := rfl
    have hall : runStages env (initState df
        (if persona ∈ PERSONAS then persona else "CFO")) =
        ⟨df, (if persona ∈ PERSONAS then persona else "CFO"),
         {}, fallbackInsights, [], ChartsData.empty, [], [],
         "Chart generation failed: " ++ ec⟩ := by
      rw [runStages_eq, h1, postMetricsStages, h2, h3, h4, h5]
    rw [hall]
    exact ⟨rfl, rfl, rfl, rfl⟩

/-- An environment with a valid configuration but every stage-level
operation failing (non-numeric data, AI outage, chart failure). -/
def envAllFail : Env :=
  { cfg := ⟨"openai", "sk-test", ""⟩, now := "t",
    metricsExc := some ("could not convert string to float"),
    insightResp := .error ("AI service unavailable"),
    riskResp := .error ("AI service unavailable"),
    chartsResp := .error ("chart backend unavailable") }

/-- An empty frame. -/
def dfEmpty : Df := ⟨0, []⟩

/-- Witness for C2: with the metrics stage forced to fail (and the external
calls failing too) the run returns status "partial" with default values. -/
theorem pipeline_status_and_defaults_witness :
    envAllFail.cfg.validate = .ok () ∧
    (run_langgraph_analysis envAllFail dfEmpty ("CFO")).status = "partial" ∧
    (run_langgraph_analysis envAllFail dfEmpty ("CFO")).metrics = {} ∧
    (run_langgraph_analysis envAllFail dfEmpty ("CFO")).trends = some [] ∧
    (run_langgraph_analysis envAllFail dfEmpty ("CFO")).insights = fallbackInsights ∧
    (run_langgraph_analysis envAllFail dfEmpty ("CFO")).risks = [] ∧
    (run_langgraph_analysis envAllFail dfEmpty ("CFO")).recommendations = [] := by
  have h := pipeline_status_and_defaults envAllFail dfEmpty ("CFO") rfl
  have h3 := h.2.2.1 _ rfl
  have h4 := h.2.2.2 _ _ _ _ rfl rfl rfl rfl
  exact ⟨rfl, h3.1, h3.2.1, h3.2.2, h4.1, h4.2.1, h4.2.2.2⟩

/-- Claim C9: an invalid persona is corrected to CFO and the pipeline still
runs (the run coincides with the run for persona CFO and its status is
never "error"); a missing credential for the active provider makes
`Config.validate` raise, which short-circuits before any stage runs and
returns status "error" with empty defaults for every other key (and no
trends key at all). -/
theorem persona_correction_and_validation_gate (env : Env) (df : Df)
    (persona : String) :
    (∀ e, env.cfg.validate = .error e →
      run_langgraph_analysis env df persona =
        ⟨"error", (if persona ∈ PERSONAS then persona else "CFO"),
         {}, {}, [], ChartsData.empty, [], none, e⟩) ∧
    (env.cfg.validate = .ok () → persona ∉ PERSONAS →
      (run_langgraph_analysis env df persona).persona = "CFO" ∧
      (run_langgraph_analysis env df persona).status ≠ "error" ∧
      run_langgraph_analysis env df persona =
        run_langgraph_analysis env df ("CFO")) ∧
    (∀ gk, (Cfg.mk ("openai") "" gk).validate =
      .error ("OPENAI_API_KEY is required. Set it in .env file")) ∧
    (∀ ak, (Cfg.mk ("gemini") ak "").validate =
      .error ("GEMINI_API_KEY is required. Set it in .env file")) := by
  refine ⟨?_, ?_, fun gk => rfl, fun ak => rfl⟩
  · intro e he
    simp only [run_langgraph_analysis, he]
  · intro hok hnot
    refine ⟨?_, ?_, ?_⟩
    · rw [run_ok_shape env df persona hok]
      show (if persona ∈ PERSONAS then persona else "CFO") = "CFO"
      rw [if_neg hnot]
    · by_cases he : (runStages env (initState df
          (if persona ∈ PERSONAS then persona else "CFO"))).error = ""
      · rw [run_ok_shape env df persona hok, if_pos he]
        intro hcontr
        exact absurd (show ("success" : String) = "error" from hcontr) (by decide)
      · rw [run_ok_shape env df persona hok, if_neg he]
        intro hcontr
        exact absurd (show ("partial" : String) = "error" from hcontr) (by decide)
    · simp only [run_langgraph_analysis, hok]
      rw [if_neg hnot, if_pos (show ("CFO" : String) ∈ PERSONAS by decide)]

/-- An environment whose active provider has no credential. -/
def envNoKey : Env :=
  { cfg := ⟨"openai", "", ""⟩, now := "t", metricsExc := none,
    insightResp := .error ("x"), riskResp := .error ("x"),
    chartsResp := .error ("x") }

/-- Witness for C9: missing credential yields the "error" response with
defaults; an unknown persona is corrected to CFO and the run is not
rejected. -/
theorem persona_correction_and_validation_gate_witness :
    (run_langgraph_analysis envNoKey dfEmpty ("CEO")).status = "error" ∧
    (run_langgraph_analysis envNoKey dfEmpty ("CEO")).error =
      "OPENAI_API_KEY is required. Set it in .env file" ∧
    (run_langgraph_analysis envNoKey dfEmpty ("CEO")).metrics = {} ∧
    (run_langgraph_analysis envNoKey dfEmpty ("CEO")).trends = none ∧
    (run_langgraph_analysis envAllFail dfEmpty ("CEO")).persona = "CFO" ∧
    (run_langgraph_analysis envAllFail dfEmpty ("CEO")).status ≠ "error" := by
  have h1 := (persona_correction_and_validation_gate envNoKey dfEmpty ("CEO")).1 _ rfl
  have h2 := (persona_correction_and_validation_gate envAllFail dfEmpty ("CEO")).2.1
    rfl (by decide)
  rw [h1]
  exact ⟨rfl, rfl, rfl, rfl, h2.1, h2.2.1⟩

end FinStory
